import Mathlib

/-
Shallow embedding of the download orchestration engine of the
Repack-Manager repository (src/repack.py and src/richer_gui.py).

The engine walks a queue of DownloadItem records, consults external
collaborators (the selenium helpers imported from cli, modelled here at
their interface boundary by an environment of response functions),
applies skip and session recycling policy, and reports progress through
a thread safe gui queue, modelled as a trace of Effect values.

External collaborators (setup_driver, click_download_button,
check_file_exists, os.path.getsize, sha256 hashing, filename derivation)
are outside the repository per the specification and are modelled by the
Env structure: each field gives the outcome of one external call.  GUI
rendering, settings persistence and the crdownload cleaning sweep at
worker start are not modelled; they do not affect the verified claims.

Python truthiness of the string returned by check_file_exists is modelled
by the function truthy, which maps the empty string to none.  time.time()
is modelled by an abstract clock counter that advances at each call.
Sizes are stored in megabytes as in the source: bytes divided by
1024 * 1024, kept exact as a rational number.
-/

/-- Lifecycle states of one download task (class DownloadStatus). -/
inductive DownloadStatus where
  | pending
  | downloading
  | completed
  | failed
  | skipped
deriving DecidableEq

/-- One unit of work and its observed outcome (class DownloadItem). -/
structure DownloadItem where
  url : String
  filename : String
  status : DownloadStatus := .pending
  progress : Nat := 0
  size : ℚ := 0
  checksum : Option String := none
  error : Option String := none
  start_time : Option Nat := none
  end_time : Option Nat := none
deriving DecidableEq

/-- One observable action of the worker: a message put on the gui queue,
an external resource action, or a pacing delay. -/
inductive Effect where
  | log (msg : String) (sev : String)
  | statusEv (msg : String)
  | progressEv (pct : Nat)
  | updateQueue
  | updateStats
  | acquire
  | release
  | sleepEv (secs : Nat)
  | downloadCall (url : String)
  | downloadComplete
deriving DecidableEq

/-- Number of occurrences of one effect in a trace. -/
def countEff (e : Effect) : List Effect → Nat
  | [] => 0
  | x :: tr => (if x = e then 1 else 0) + countEff e tr

/-- Outcomes of the external collaborator calls consumed by the engine.
resolveBefore and resolveAfter are the two check_file_exists queries (the
file system may have changed between them); fileSize combines
Path.exists with os.path.getsize in bytes; download is
click_download_button; checksumOf is the sha256 hexdigest of reading the
file, raising on read errors; acquireResult is the outcome of the nth
setup_driver call; deriveName is get_filename_from_url. -/
structure Env where
  resolveBefore : String → Option String
  resolveAfter : String → Option String
  fileSize : String → Option Nat
  download : String → Except String Bool
  checksumOf : String → Except String String
  acquireResult : Nat → Except String Unit
  deriveName : String → Option String

/-- Python truthiness of an optional string: the empty string is falsy. -/
def truthy : Option String → Option String
  | some s => if s = "" then none else some s
  | none => none

/-- Python str.endswith on one suffix, expressed over the character
lists of the strings. -/
def strEndsWith (s suffix : String) : Bool :=
  suffix.data.isSuffixOf s.data

/-- The suffix test of the skip check in repack.py:
existing.endswith((".crdownload", ".part", ".tmp")). -/
def isTempSuffixRepack (name : String) : Bool :=
  strEndsWith name ".crdownload" || strEndsWith name ".part" || strEndsWith name ".tmp"

/-- The suffix test of the skip check in richer_gui.py:
existing.endswith((".crdownload", ".part")). -/
def isTempSuffixRicher (name : String) : Bool :=
  strEndsWith name ".crdownload" || strEndsWith name ".part"

/-- The same environment with every pre-download artifact query answering
that no artifact exists. -/
def noneBefore (env : Env) : Env :=
  { env with resolveBefore := fun _ => none }

/-- Mutable worker state threaded through the loop: the
downloads_since_refresh counter, the abstract clock, and the index of the
next setup_driver call. -/
structure WState where
  count : Nat
  clock : Nat
  acqIdx : Nat
deriving DecidableEq

/-- Run configuration: the session refresh threshold, the verify checksum
switch, and the value of the shared is_downloading flag as observed at
the top of each loop iteration. -/
structure RunCfg where
  sessionRefresh : Nat
  verifyChecksum : Bool
  flagAt : Nat → Bool

/-- Result of processing one task: the updated item, the updated worker
state, the effects emitted, and the message of an exception that escaped
the loop body, if one was raised. -/
structure TaskResult where
  item : DownloadItem
  st : WState
  effects : List Effect
  crash : Option String
deriving DecidableEq

/-- Result of the queue walk: updated items, final worker state, trace,
and the message of an exception that aborted the walk, if any. -/
structure RunResult where
  items : List DownloadItem
  st : WState
  effects : List Effect
  crash : Option String
deriving DecidableEq

/-- DownloaderGUI.calculate_checksum: stream the file in 4096 byte chunks
through sha256 and return the hex digest; on a read error, log and return
None.  The hashing is external, its outcome is env.checksumOf. -/
def calculate_checksum (env : Env) (path : String) :
    Option String × List Effect :=
  match env.checksumOf path with
  | .ok d => (some d, [])
  | .error _ => (none, [.log "Checksum error" "error"])

namespace Repack

/-- Tail of the loop body in repack.py: item.end_time = time.time(), the
two queue update messages, and the fixed time.sleep(2) pacing delay. -/
def finishTask (st : WState) (item : DownloadItem) (effs : List Effect) :
    TaskResult :=
  { item := { item with end_time := some st.clock }
    st := { st with clock := st.clock + 1 }
    effects := effs ++ [.updateQueue, .updateStats, .sleepEv 2]
    crash := none }

/-- The download call and its two outcome branches in repack.py
(result = click_download_button; success records size and checksum via a
second check_file_exists query, failure records the error text). -/
def doDownload (env : Env) (cfg : RunCfg) (st : WState)
    (item : DownloadItem) (effs : List Effect) : TaskResult :=
  let effs1 := effs ++ [.downloadCall item.url]
  match env.download item.url with
  | .error msg => { item := item, st := st, effects := effs1, crash := some msg }
  | .ok true =>
    let st1 := { st with count := st.count + 1 }
    let item1 := { item with status := .completed }
    let next : DownloadItem × List Effect :=
      match truthy (env.resolveAfter item.url) with
      | some downloaded =>
        match env.fileSize downloaded with
        | some b =>
          let item2 := { item1 with size := (b : ℚ) / (1024 * 1024) }
          if cfg.verifyChecksum then
            let effs2 := effs1 ++ [.log "Verifying checksum" "info"]
            let ck := calculate_checksum env downloaded
            ({ item2 with checksum := ck.1 }, effs2 ++ ck.2)
          else (item2, effs1)
        | none => (item1, effs1)
      | none => (item1, effs1)
    finishTask st1 next.1 (next.2 ++ [.log "Completed" "success"])
  | .ok false =>
    let item1 := { item with status := .failed, error := some "Download failed" }
    finishTask st item1 (effs1 ++ [.log "Failed" "error"])

/-- The non-skip path of the loop body in repack.py: transition to
downloading, record the start timestamp, then the session refresh check
(quit, pause, fresh setup_driver, counter reset) before the download. -/
def attemptDownload (env : Env) (cfg : RunCfg) (st : WState)
    (item : DownloadItem) (effs : List Effect) : TaskResult :=
  let item1 := { item with status := .downloading, start_time := some st.clock }
  let st1 := { st with clock := st.clock + 1 }
  let effs1 := effs ++ [.updateQueue, .log "Downloading" "info"]
  if st1.count ≥ cfg.sessionRefresh then
    let effs2 := effs1 ++ [.log "Refreshing browser session" "info", .release, .sleepEv 1]
    match env.acquireResult st1.acqIdx with
    | .error msg => { item := item1, st := st1, effects := effs2, crash := some msg }
    | .ok _ =>
      let st2 := { st1 with count := 0, acqIdx := st1.acqIdx + 1 }
      doDownload env cfg st2 item1 (effs2 ++ [.acquire])
  else
    doDownload env cfg st1 item1 effs1

/-- One iteration of the queue walk of DownloaderGUI.download_worker in
repack.py: the status and progress messages, the check_file_exists skip
check with the crdownload, part and tmp suffixes, and the skip branch
(status skipped, size read when the file exists, continue with no end
timestamp, no counter change, no resource interaction). -/
def processTask (env : Env) (cfg : RunCfg) (total idx : Nat) (st : WState)
    (item : DownloadItem) : TaskResult :=
  let effs0 : List Effect :=
    [.statusEv "Processing", .progressEv (idx * 100 / total)]
  match truthy (env.resolveBefore item.url) with
  | some existing =>
    if isTempSuffixRepack existing then
      attemptDownload env cfg st item effs0
    else
      { item :=
          { item with
            status := .skipped
            size :=
              match env.fileSize existing with
              | some b => (b : ℚ) / (1024 * 1024)
              | none => item.size }
        st := st
        effects := effs0 ++ [.log "Skipped (exists)" "warning", .updateQueue]
        crash := none }
  | none => attemptDownload env cfg st item effs0

/-- The artifact name that makes the skip branch fire for this url, if
any: a truthy check_file_exists answer without a temporary suffix. -/
def skipHit (env : Env) (u : String) : Option String :=
  match truthy (env.resolveBefore u) with
  | some existing => if isTempSuffixRepack existing then none else some existing
  | none => none

/-- The for loop of download_worker: at the top of each iteration the
shared is_downloading flag is read; when clear the walk stops and the
remaining items are left untouched.  An exception raised in the body
aborts the walk. -/
def runFrom (env : Env) (cfg : RunCfg) (total : Nat) :
    Nat → WState → List DownloadItem → RunResult
  | _, st, [] => { items := [], st := st, effects := [], crash := none }
  | idx, st, item :: rest =>
    if cfg.flagAt idx then
      let r := processTask env cfg total idx st item
      match r.crash with
      | some msg =>
        { items := r.item :: rest, st := r.st, effects := r.effects, crash := some msg }
      | none =>
        let rr := runFrom env cfg total (idx + 1) r.st rest
        { items := r.item :: rr.items, st := rr.st,
          effects := r.effects ++ rr.effects, crash := rr.crash }
    else
      { items := item :: rest, st := st, effects := [], crash := none }

/-- DownloaderGUI.download_worker in repack.py: acquire the driver (a
failure there is caught, logged, and only download_complete is emitted,
the driver being still None), walk the queue, then the except block logs
a crash message and the finally block quits the driver and emits the
single download_complete event. -/
def download_worker (env : Env) (cfg : RunCfg) (items : List DownloadItem) :
    List DownloadItem × List Effect :=
  match env.acquireResult 0 with
  | .error _ => (items, [.log "Error" "error", .downloadComplete])
  | .ok _ =>
    let r := runFrom env cfg items.length 0 ⟨0, 0, 1⟩ items
    (r.items,
      .acquire :: r.effects
        ++ (match r.crash with
            | some _ => [.log "Error" "error"]
            | none => [])
        ++ [.release, .downloadComplete])

end Repack

/-- Total number of driver.quit() invocations across a run: those in the
worker trace plus, when Stop rather than Pause set the cancellation flag,
the immediate quit performed by stop_downloads on the observer thread. -/
def totalReleaseInvocations (stopUsed : Bool) (tr : List Effect) : Nat :=
  countEff .release tr + (if stopUsed then 1 else 0)

namespace Richer

/-- Tail of the loop body in richer_gui.py: end timestamp, queue and
stats messages, and the progress message; there is no pacing delay. -/
def finishTask (total idx : Nat) (st : WState) (item : DownloadItem)
    (effs : List Effect) : TaskResult :=
  { item := { item with end_time := some st.clock }
    st := { st with clock := st.clock + 1 }
    effects := effs ++ [.updateQueue, .updateStats,
      .progressEv ((idx + 1) * 100 / total)]
    crash := none }

/-- The download call and its branches in richer_gui.py: on success the
size is read with os.path.getsize without an existence check, so a
missing file raises out of the loop; on failure only the status is set,
no error text is recorded. -/
def doDownload (env : Env) (cfg : RunCfg) (total idx : Nat) (st : WState)
    (item : DownloadItem) (effs : List Effect) : TaskResult :=
  let effs1 := effs ++ [.downloadCall item.url]
  match env.download item.url with
  | .error msg => { item := item, st := st, effects := effs1, crash := some msg }
  | .ok true =>
    let st1 := { st with count := st.count + 1 }
    let item1 := { item with status := .completed }
    match truthy (env.resolveAfter item.url) with
    | some downloaded =>
      match env.fileSize downloaded with
      | none =>
        { item := item1, st := st1, effects := effs1, crash := some "getsize" }
      | some b =>
        let item2 := { item1 with size := (b : ℚ) / (1024 * 1024) }
        if cfg.verifyChecksum then
          let effs2 := effs1 ++ [.log "Verifying" "info"]
          let ck := calculate_checksum env downloaded
          finishTask total idx st1 { item2 with checksum := ck.1 }
            (effs2 ++ ck.2 ++ [.log "Success" "success"])
        else
          finishTask total idx st1 item2 (effs1 ++ [.log "Success" "success"])
    | none => finishTask total idx st1 item1 effs1
  | .ok false =>
    let item1 := { item with status := .failed }
    finishTask total idx st item1 (effs1 ++ [.log "Failed" "error"])

/-- The non-skip path of the loop body in richer_gui.py: the session
refresh check comes first, then the transition to downloading with its
start timestamp and messages, then the download call. -/
def attemptDownload (env : Env) (cfg : RunCfg) (total idx : Nat)
    (st : WState) (item : DownloadItem) (effs : List Effect) : TaskResult :=
  if st.count ≥ cfg.sessionRefresh then
    let effs1 := effs ++ [.log "Refreshing browser session" "info", .release, .sleepEv 1]
    match env.acquireResult st.acqIdx with
    | .error msg => { item := item, st := st, effects := effs1, crash := some msg }
    | .ok _ =>
      let st1 := { st with count := 0, acqIdx := st.acqIdx + 1 }
      let item1 := { item with status := .downloading, start_time := some st1.clock }
      let st2 := { st1 with clock := st1.clock + 1 }
      doDownload env cfg total idx st2 item1
        (effs1 ++ [.acquire, .statusEv "Downloading", .updateQueue])
  else
    let item1 := { item with status := .downloading, start_time := some st.clock }
    let st1 := { st with clock := st.clock + 1 }
    doDownload env cfg total idx st1 item1
      (effs ++ [.statusEv "Downloading", .updateQueue])

/-- One iteration of the queue walk of DownloaderGUI.download_worker in
richer_gui.py: the skip check excludes only the crdownload and part
suffixes, and the skip branch also emits a progress message. -/
def processTask (env : Env) (cfg : RunCfg) (total idx : Nat) (st : WState)
    (item : DownloadItem) : TaskResult :=
  match truthy (env.resolveBefore item.url) with
  | some existing =>
    if isTempSuffixRicher existing then
      attemptDownload env cfg total idx st item []
    else
      { item :=
          { item with
            status := .skipped
            size :=
              match env.fileSize existing with
              | some b => (b : ℚ) / (1024 * 1024)
              | none => item.size }
        st := st
        effects := [.log "Skipped (exists)" "warning", .updateQueue,
          .progressEv (idx * 100 / total)]
        crash := none }
  | none => attemptDownload env cfg total idx st item []

end Richer

/-- One insertion step of pythons dict.fromkeys: append the key when it
is not present yet, first occurrence wins. -/
def insertKey (acc : List String) (u : String) : List String :=
  if u ∈ acc then acc else acc ++ [u]

/-- urls = list(dict.fromkeys(urls)): deduplicate preserving insertion
order.  The same line appears in load_urls of repack.py and in
process_loaded_urls of richer_gui.py. -/
def dictFromKeys (urls : List String) : List String :=
  urls.foldl insertKey []

/-- DownloadItem.__init__ for a freshly loaded url: filename falls back
from get_filename_from_url (None and the empty string are falsy) to the
first fifty characters of the url; every other field starts at its
default, in particular status = pending. -/
def DownloadItem.ofUrl (env : Env) (url : String) : DownloadItem :=
  { url := url
    filename :=
      match env.deriveName url with
      | some s => if s = "" then url.take 50 else s
      | none => url.take 50 }

/-- Queue creation in DownloaderGUI.load_urls of repack.py (identical in
process_loaded_urls of richer_gui.py): deduplicate the gathered urls and
build one fresh DownloadItem per remaining url. -/
def load_urls (env : Env) (urls : List String) : List DownloadItem :=
  (dictFromKeys urls).map (DownloadItem.ofUrl env)

/-- Modelled from the spec refinement side for comparison with
dictFromKeys: keep each identity exactly once, in order of first
occurrence (first occurrence wins). -/
def firstOccurrences : List String → List String
  | [] => []
  | x :: xs => x :: firstOccurrences (xs.filter (fun y => y ≠ x))
termination_by l => l.length
decreasing_by
  simp only [List.length_cons]
  exact Nat.lt_succ_of_le (List.length_filter_le _ _)

theorem countEff_nil (e : Effect) : countEff e [] = 0 := rfl

theorem countEff_cons (e x : Effect) (tr : List Effect) :
    countEff e (x :: tr) = (if x = e then 1 else 0) + countEff e tr := rfl

theorem countEff_append (e : Effect) (l1 l2 : List Effect) :
    countEff e (l1 ++ l2) = countEff e l1 + countEff e l2 := by
  induction l1 with
  | nil => simp [countEff]
  | cons x l ih => simp [countEff, ih, Nat.add_assoc]

theorem countEff_eq_zero (e : Effect) (tr : List Effect) :
    countEff e tr = 0 ↔ e ∉ tr := by
  induction tr with
  | nil => simp [countEff]
  | cons x l ih =>
    by_cases hx : x = e
    · subst hx; simp [countEff]
    · have hne : ¬e = x := fun h => hx h.symm
      simp [countEff, hx, ih, hne]

/-- Effects that are pure gui messages or delays: everything except the
resource actions, the download call and the completion event. -/
def isPlainEff : Effect → Bool
  | .log _ _ => true
  | .statusEv _ => true
  | .progressEv _ => true
  | .updateQueue => true
  | .updateStats => true
  | .sleepEv _ => true
  | .acquire => false
  | .release => false
  | .downloadCall _ => false
  | .downloadComplete => false

theorem countEff_plain_zero (tr : List Effect)
    (h : ∀ e ∈ tr, isPlainEff e = true) :
    countEff .release tr = 0 ∧ countEff .acquire tr = 0 ∧
    countEff .downloadComplete tr = 0 ∧
    ∀ u, countEff (.downloadCall u) tr = 0 := by
  induction tr with
  | nil => simp [countEff]
  | cons x l ih =>
    have hx := h x (by simp)
    have hl := ih fun e he => h e (by simp [he])
    cases x <;> simp_all [countEff, isPlainEff]

namespace Repack

theorem doDownload_raise (env : Env) (cfg : RunCfg) (st : WState)
    (item : DownloadItem) (effs : List Effect) (msg : String)
    (h : env.download item.url = .error msg) :
    doDownload env cfg st item effs =
      { item := item, st := st,
        effects := effs ++ [.downloadCall item.url], crash := some msg } := by
  simp [doDownload, h]

theorem doDownload_fail (env : Env) (cfg : RunCfg) (st : WState)
    (item : DownloadItem) (effs : List Effect)
    (h : env.download item.url = .ok false) :
    doDownload env cfg st item effs =
      { item :=
          { item with
            status := .failed
            error := some "Download failed"
            end_time := some st.clock }
        st := { st with clock := st.clock + 1 }
        effects := effs ++ [.downloadCall item.url, .log "Failed" "error",
          .updateQueue, .updateStats, .sleepEv 2]
        crash := none } := by
  simp [doDownload, h, finishTask]

theorem doDownload_ok_noArtifact (env : Env) (cfg : RunCfg) (st : WState)
    (item : DownloadItem) (effs : List Effect)
    (h : env.download item.url = .ok true)
    (ha : truthy (env.resolveAfter item.url) = none) :
    doDownload env cfg st item effs =
      { item :=
          { item with
            status := .completed
            end_time := some st.clock }
        st := { st with count := st.count + 1, clock := st.clock + 1 }
        effects := effs ++ [.downloadCall item.url, .log "Completed" "success",
          .updateQueue, .updateStats, .sleepEv 2]
        crash := none } := by
  simp [doDownload, h, ha, finishTask]

theorem doDownload_ok_ckErr (env : Env) (cfg : RunCfg) (st : WState)
    (item : DownloadItem) (effs : List Effect) (dn : String) (b : Nat) (msg : String)
    (h : env.download item.url = .ok true)
    (ha : truthy (env.resolveAfter item.url) = some dn)
    (hb : env.fileSize dn = some b)
    (hv : cfg.verifyChecksum = true)
    (hc : env.checksumOf dn = .error msg) :
    doDownload env cfg st item effs =
      { item :=
          { item with
            status := .completed
            size := (b : ℚ) / (1024 * 1024)
            checksum := none
            end_time := some st.clock }
        st := { st with count := st.count + 1, clock := st.clock + 1 }
        effects := effs ++ [.downloadCall item.url, .log "Verifying checksum" "info",
          .log "Checksum error" "error", .log "Completed" "success",
          .updateQueue, .updateStats, .sleepEv 2]
        crash := none } := by
  simp [doDownload, h, ha, hb, hv, hc, calculate_checksum, finishTask]

theorem doDownload_ok_ckOk (env : Env) (cfg : RunCfg) (st : WState)
    (item : DownloadItem) (effs : List Effect) (dn : String) (b : Nat) (d : String)
    (h : env.download item.url = .ok true)
    (ha : truthy (env.resolveAfter item.url) = some dn)
    (hb : env.fileSize dn = some b)
    (hv : cfg.verifyChecksum = true)
    (hc : env.checksumOf dn = .ok d) :
    doDownload env cfg st item effs =
      { item :=
          { item with
            status := .completed
            size := (b : ℚ) / (1024 * 1024)
            checksum := some d
            end_time := some st.clock }
        st := { st with count := st.count + 1, clock := st.clock + 1 }
        effects := effs ++ [.downloadCall item.url, .log "Verifying checksum" "info",
          .log "Completed" "success", .updateQueue, .updateStats, .sleepEv 2]
        crash := none } := by
  simp [doDownload, h, ha, hb, hv, hc, calculate_checksum, finishTask]

theorem attemptDownload_noRecycle (env : Env) (cfg : RunCfg) (st : WState)
    (item : DownloadItem) (effs : List Effect)
    (h : st.count < cfg.sessionRefresh) :
    attemptDownload env cfg st item effs =
      doDownload env cfg { st with clock := st.clock + 1 }
        { item with status := .downloading, start_time := some st.clock }
        (effs ++ [.updateQueue, .log "Downloading" "info"]) := by
  simp [attemptDownload, Nat.not_le.mpr h]

theorem attemptDownload_recycle (env : Env) (cfg : RunCfg) (st : WState)
    (item : DownloadItem) (effs : List Effect)
    (h : st.count ≥ cfg.sessionRefresh)
    (ha : env.acquireResult st.acqIdx = .ok ()) :
    attemptDownload env cfg st item effs =
      doDownload env cfg { st with count := 0, clock := st.clock + 1, acqIdx := st.acqIdx + 1 }
        { item with status := .downloading, start_time := some st.clock }
        (effs ++ [.updateQueue, .log "Downloading" "info",
          .log "Refreshing browser session" "info", .release, .sleepEv 1, .acquire]) := by
  simp [attemptDownload, h, ha]

theorem attemptDownload_recycleFail (env : Env) (cfg : RunCfg) (st : WState)
    (item : DownloadItem) (effs : List Effect) (msg : String)
    (h : st.count ≥ cfg.sessionRefresh)
    (ha : env.acquireResult st.acqIdx = .error msg) :
    attemptDownload env cfg st item effs =
      { item := { item with status := .downloading, start_time := some st.clock }
        st := { st with clock := st.clock + 1 }
        effects := effs ++ [.updateQueue, .log "Downloading" "info",
          .log "Refreshing browser session" "info", .release, .sleepEv 1]
        crash := some msg } := by
  simp [attemptDownload, h, ha]

theorem processTask_skip (env : Env) (cfg : RunCfg) (total idx : Nat)
    (st : WState) (item : DownloadItem) (ex : String)
    (ht : truthy (env.resolveBefore item.url) = some ex)
    (hs : isTempSuffixRepack ex = false) :
    processTask env cfg total idx st item =
      { item :=
          { item with
            status := .skipped
            size :=
              match env.fileSize ex with
              | some b => (b : ℚ) / (1024 * 1024)
              | none => item.size }
        st := st
        effects := [.statusEv "Processing", .progressEv (idx * 100 / total),
          .log "Skipped (exists)" "warning", .updateQueue]
        crash := none } := by
  simp [processTask, ht, hs]

theorem processTask_attempt (env : Env) (cfg : RunCfg) (total idx : Nat)
    (st : WState) (item : DownloadItem)
    (h : skipHit env item.url = none) :
    processTask env cfg total idx st item =
      attemptDownload env cfg st item
        [.statusEv "Processing", .progressEv (idx * 100 / total)] := by
  unfold skipHit at h
  unfold processTask
  cases htr : truthy (env.resolveBefore item.url) with
  | none => simp
  | some ex =>
    rw [htr] at h
    cases hs : isTempSuffixRepack ex with
    | true => simp [hs]
    | false => simp [hs] at h

end Repack

namespace Repack

theorem doDownload_ok_noFile (env : Env) (cfg : RunCfg) (st : WState)
    (item : DownloadItem) (effs : List Effect) (dn : String)
    (h : env.download item.url = .ok true)
    (ha : truthy (env.resolveAfter item.url) = some dn)
    (hb : env.fileSize dn = none) :
    doDownload env cfg st item effs =
      { item :=
          { item with
            status := .completed
            end_time := some st.clock }
        st := { st with count := st.count + 1, clock := st.clock + 1 }
        effects := effs ++ [.downloadCall item.url, .log "Completed" "success",
          .updateQueue, .updateStats, .sleepEv 2]
        crash := none } := by
  simp [doDownload, h, ha, hb, finishTask]

theorem doDownload_ok_noVerify (env : Env) (cfg : RunCfg) (st : WState)
    (item : DownloadItem) (effs : List Effect) (dn : String) (b : Nat)
    (h : env.download item.url = .ok true)
    (ha : truthy (env.resolveAfter item.url) = some dn)
    (hb : env.fileSize dn = some b)
    (hv : cfg.verifyChecksum = false) :
    doDownload env cfg st item effs =
      { item :=
          { item with
            status := .completed
            size := (b : ℚ) / (1024 * 1024)
            end_time := some st.clock }
        st := { st with count := st.count + 1, clock := st.clock + 1 }
        effects := effs ++ [.downloadCall item.url, .log "Completed" "success",
          .updateQueue, .updateStats, .sleepEv 2]
        crash := none } := by
  simp [doDownload, h, ha, hb, hv, finishTask]

theorem doDownload_shape (env : Env) (cfg : RunCfg) (st : WState)
    (item : DownloadItem) (effs : List Effect) :
    ∃ tail, (doDownload env cfg st item effs).effects
        = effs ++ .downloadCall item.url :: tail
      ∧ ∀ e ∈ tail, isPlainEff e = true := by
  rcases hd : env.download item.url with msg | b
  · rw [doDownload_raise env cfg st item effs msg hd]
    exact ⟨[], rfl, by simp⟩
  · cases b
    · rw [doDownload_fail env cfg st item effs hd]
      exact ⟨[.log "Failed" "error", .updateQueue, .updateStats, .sleepEv 2],
        rfl, by decide⟩
    · rcases ha : truthy (env.resolveAfter item.url) with _ | dn
      · rw [doDownload_ok_noArtifact env cfg st item effs hd ha]
        exact ⟨[.log "Completed" "success", .updateQueue, .updateStats, .sleepEv 2],
          rfl, by decide⟩
      · rcases hb : env.fileSize dn with _ | b
        · rw [doDownload_ok_noFile env cfg st item effs dn hd ha hb]
          exact ⟨[.log "Completed" "success", .updateQueue, .updateStats, .sleepEv 2],
            rfl, by decide⟩
        · rcases hv : cfg.verifyChecksum
          · rw [doDownload_ok_noVerify env cfg st item effs dn b hd ha hb hv]
            exact ⟨[.log "Completed" "success", .updateQueue, .updateStats, .sleepEv 2],
              rfl, by decide⟩
          · rcases hc : env.checksumOf dn with msg | d
            · rw [doDownload_ok_ckErr env cfg st item effs dn b msg hd ha hb hv hc]
              exact ⟨[.log "Verifying checksum" "info", .log "Checksum error" "error",
                .log "Completed" "success", .updateQueue, .updateStats, .sleepEv 2],
                rfl, by decide⟩
            · rw [doDownload_ok_ckOk env cfg st item effs dn b d hd ha hb hv hc]
              exact ⟨[.log "Verifying checksum" "info", .log "Completed" "success",
                .updateQueue, .updateStats, .sleepEv 2], rfl, by decide⟩

theorem doDownload_counts (env : Env) (cfg : RunCfg) (st : WState)
    (item : DownloadItem) (effs : List Effect) :
    countEff .release (doDownload env cfg st item effs).effects = countEff .release effs
  ∧ countEff .acquire (doDownload env cfg st item effs).effects = countEff .acquire effs
  ∧ countEff .downloadComplete (doDownload env cfg st item effs).effects
      = countEff .downloadComplete effs
  ∧ ∀ u, countEff (.downloadCall u) (doDownload env cfg st item effs).effects
      = countEff (.downloadCall u) effs + (if item.url = u then 1 else 0) := by
  obtain ⟨tail, he, hp⟩ := doDownload_shape env cfg st item effs
  obtain ⟨r0, a0, d0, u0⟩ := countEff_plain_zero tail hp
  rw [he]
  refine ⟨?_, ?_, ?_, ?_⟩
  · simp [countEff_append, countEff_cons, r0]
  · simp [countEff_append, countEff_cons, a0]
  · simp [countEff_append, countEff_cons, d0]
  · intro u
    simp [countEff_append, countEff_cons, u0 u, Effect.downloadCall.injEq]

theorem skipHit_some (env : Env) (u ex : String)
    (h : skipHit env u = some ex) :
    truthy (env.resolveBefore u) = some ex ∧ isTempSuffixRepack ex = false := by
  unfold skipHit at h
  cases htr : truthy (env.resolveBefore u) with
  | none => rw [htr] at h; cases h
  | some e2 =>
    rw [htr] at h
    cases hs : isTempSuffixRepack e2 with
    | true => simp [hs] at h
    | false =>
      simp [hs] at h
      exact ⟨by rw [← h], by rw [← h]; exact hs⟩

theorem skipHit_none (env : Env) (u : String)
    (h : skipHit env u = none) :
    truthy (env.resolveBefore u) = none ∨
      ∃ ex, truthy (env.resolveBefore u) = some ex ∧ isTempSuffixRepack ex = true := by
  unfold skipHit at h
  cases htr : truthy (env.resolveBefore u) with
  | none => exact Or.inl rfl
  | some e2 =>
    rw [htr] at h
    cases hs : isTempSuffixRepack e2 with
    | true => exact Or.inr ⟨e2, rfl, hs⟩
    | false => simp [hs] at h

end Repack

namespace Repack

theorem processTask_dcc (env : Env) (cfg : RunCfg) (total idx : Nat)
    (st : WState) (item : DownloadItem) :
    countEff .downloadComplete (processTask env cfg total idx st item).effects = 0 := by
  cases hsk : skipHit env item.url with
  | some ex =>
    obtain ⟨ht, hs⟩ := skipHit_some env item.url ex hsk
    rw [processTask_skip env cfg total idx st item ex ht hs]
    simp [countEff]
  | none =>
    rw [processTask_attempt env cfg total idx st item hsk]
    by_cases hth : st.count < cfg.sessionRefresh
    · rw [attemptDownload_noRecycle env cfg st item _ hth]
      rw [(doDownload_counts env cfg _ _ _).2.2.1]
      simp [countEff]
    · have hge : st.count ≥ cfg.sessionRefresh := Nat.not_lt.mp hth
      rcases ha : env.acquireResult st.acqIdx with msg | u
      · rw [attemptDownload_recycleFail env cfg st item _ msg hge ha]
        simp [countEff]
      · cases u
        rw [attemptDownload_recycle env cfg st item _ hge ha]
        rw [(doDownload_counts env cfg _ _ _).2.2.1]
        simp [countEff]

theorem processTask_dcu_zero (env : Env) (cfg : RunCfg) (total idx : Nat)
    (st : WState) (item : DownloadItem) (u ex : String)
    (hu : skipHit env u = some ex) :
    countEff (.downloadCall u) (processTask env cfg total idx st item).effects = 0 := by
  by_cases hurl : item.url = u
  · rw [← hurl] at hu
    obtain ⟨ht, hs⟩ := skipHit_some env item.url ex hu
    rw [processTask_skip env cfg total idx st item ex ht hs]
    simp [countEff]
  · cases hsk : skipHit env item.url with
    | some ex2 =>
      obtain ⟨ht, hs⟩ := skipHit_some env item.url ex2 hsk
      rw [processTask_skip env cfg total idx st item ex2 ht hs]
      simp [countEff]
    | none =>
      rw [processTask_attempt env cfg total idx st item hsk]
      by_cases hth : st.count < cfg.sessionRefresh
      · rw [attemptDownload_noRecycle env cfg st item _ hth]
        rw [(doDownload_counts env cfg _ _ _).2.2.2 u]
        simp [countEff, hurl]
      · have hge : st.count ≥ cfg.sessionRefresh := Nat.not_lt.mp hth
        rcases ha : env.acquireResult st.acqIdx with msg | v
        · rw [attemptDownload_recycleFail env cfg st item _ msg hge ha]
          simp [countEff]
        · cases v
          rw [attemptDownload_recycle env cfg st item _ hge ha]
          rw [(doDownload_counts env cfg _ _ _).2.2.2 u]
          simp [countEff, hurl]

theorem processTask_balance (env : Env) (cfg : RunCfg) (total idx : Nat)
    (st : WState) (item : DownloadItem)
    (hc : (processTask env cfg total idx st item).crash = none) :
    countEff .release (processTask env cfg total idx st item).effects
      = countEff .acquire (processTask env cfg total idx st item).effects := by
  cases hsk : skipHit env item.url with
  | some ex =>
    obtain ⟨ht, hs⟩ := skipHit_some env item.url ex hsk
    rw [processTask_skip env cfg total idx st item ex ht hs]
    simp [countEff]
  | none =>
    rw [processTask_attempt env cfg total idx st item hsk]
    by_cases hth : st.count < cfg.sessionRefresh
    · rw [attemptDownload_noRecycle env cfg st item _ hth]
      rw [(doDownload_counts env cfg _ _ _).1, (doDownload_counts env cfg _ _ _).2.1]
      simp [countEff]
    · have hge : st.count ≥ cfg.sessionRefresh := Nat.not_lt.mp hth
      rcases ha : env.acquireResult st.acqIdx with msg | v
      · rw [processTask_attempt env cfg total idx st item hsk] at hc
        rw [attemptDownload_recycleFail env cfg st item _ msg hge ha] at hc
        simp at hc
      · cases v
        rw [attemptDownload_recycle env cfg st item _ hge ha]
        rw [(doDownload_counts env cfg _ _ _).1, (doDownload_counts env cfg _ _ _).2.1]
        simp [countEff]

theorem runFrom_nil (env : Env) (cfg : RunCfg) (total idx : Nat) (st : WState) :
    runFrom env cfg total idx st [] = ⟨[], st, [], none⟩ := rfl

theorem runFrom_flagFalse (env : Env) (cfg : RunCfg) (total idx : Nat)
    (st : WState) (item : DownloadItem) (rest : List DownloadItem)
    (h : cfg.flagAt idx = false) :
    runFrom env cfg total idx st (item :: rest) =
      ⟨item :: rest, st, [], none⟩ := by
  simp [runFrom, h]

theorem runFrom_crashStep (env : Env) (cfg : RunCfg) (total idx : Nat)
    (st : WState) (item : DownloadItem) (rest : List DownloadItem) (msg : String)
    (h : cfg.flagAt idx = true)
    (hc : (processTask env cfg total idx st item).crash = some msg) :
    runFrom env cfg total idx st (item :: rest) =
      ⟨(processTask env cfg total idx st item).item :: rest,
        (processTask env cfg total idx st item).st,
        (processTask env cfg total idx st item).effects, some msg⟩ := by
  simp [runFrom, h, hc]

theorem runFrom_step (env : Env) (cfg : RunCfg) (total idx : Nat)
    (st : WState) (item : DownloadItem) (rest : List DownloadItem)
    (h : cfg.flagAt idx = true)
    (hc : (processTask env cfg total idx st item).crash = none) :
    runFrom env cfg total idx st (item :: rest) =
      ⟨(processTask env cfg total idx st item).item ::
          (runFrom env cfg total (idx + 1) (processTask env cfg total idx st item).st rest).items,
        (runFrom env cfg total (idx + 1) (processTask env cfg total idx st item).st rest).st,
        (processTask env cfg total idx st item).effects ++
          (runFrom env cfg total (idx + 1) (processTask env cfg total idx st item).st rest).effects,
        (runFrom env cfg total (idx + 1) (processTask env cfg total idx st item).st rest).crash⟩ := by
  simp [runFrom, h, hc]

end Repack

namespace Repack

theorem runFrom_drop (env : Env) (cfg : RunCfg) (total : Nat) :
    ∀ (items : List DownloadItem) (idx : Nat) (st : WState) (k : Nat),
      cfg.flagAt (idx + k) = false →
      (runFrom env cfg total idx st items).items.drop k = items.drop k := by
  intro items
  induction items with
  | nil => intro idx st k _; simp [runFrom_nil]
  | cons item rest ih =>
    intro idx st k h
    by_cases hf : cfg.flagAt idx = true
    · cases k with
      | zero =>
        rw [Nat.add_zero] at h
        rw [h] at hf
        cases hf
      | succ k2 =>
        have hfa : cfg.flagAt (idx + 1 + k2) = false := by
          have : idx + 1 + k2 = idx + (k2 + 1) := by omega
          rw [this]; exact h
        cases hc : (processTask env cfg total idx st item).crash with
        | some msg =>
          rw [runFrom_crashStep env cfg total idx st item rest msg hf hc]
          simp
        | none =>
          rw [runFrom_step env cfg total idx st item rest hf hc]
          simpa using ih (idx + 1) (processTask env cfg total idx st item).st k2 hfa
    · have hf2 : cfg.flagAt idx = false := by
        cases hv : cfg.flagAt idx
        · rfl
        · exact absurd hv hf
      rw [runFrom_flagFalse env cfg total idx st item rest hf2]

theorem runFrom_balance (env : Env) (cfg : RunCfg) (total : Nat) :
    ∀ (items : List DownloadItem) (idx : Nat) (st : WState),
      (runFrom env cfg total idx st items).crash = none →
      countEff .release (runFrom env cfg total idx st items).effects
        = countEff .acquire (runFrom env cfg total idx st items).effects := by
  intro items
  induction items with
  | nil => intro idx st _; simp [runFrom_nil, countEff]
  | cons item rest ih =>
    intro idx st h
    by_cases hf : cfg.flagAt idx = true
    · cases hc : (processTask env cfg total idx st item).crash with
      | some msg =>
        rw [runFrom_crashStep env cfg total idx st item rest msg hf hc] at h
        simp at h
      | none =>
        rw [runFrom_step env cfg total idx st item rest hf hc] at h ⊢
        simp only [countEff_append]
        have hrest := ih (idx + 1) (processTask env cfg total idx st item).st h
        rw [processTask_balance env cfg total idx st item hc, hrest]
    · have hf2 : cfg.flagAt idx = false := by
        cases hv : cfg.flagAt idx
        · rfl
        · exact absurd hv hf
      rw [runFrom_flagFalse env cfg total idx st item rest hf2]
      simp [countEff]

theorem runFrom_dcc (env : Env) (cfg : RunCfg) (total : Nat) :
    ∀ (items : List DownloadItem) (idx : Nat) (st : WState),
      countEff .downloadComplete (runFrom env cfg total idx st items).effects = 0 := by
  intro items
  induction items with
  | nil => intro idx st; simp [runFrom_nil, countEff]
  | cons item rest ih =>
    intro idx st
    by_cases hf : cfg.flagAt idx = true
    · cases hc : (processTask env cfg total idx st item).crash with
      | some msg =>
        rw [runFrom_crashStep env cfg total idx st item rest msg hf hc]
        exact processTask_dcc env cfg total idx st item
      | none =>
        rw [runFrom_step env cfg total idx st item rest hf hc]
        simp only [countEff_append]
        rw [processTask_dcc env cfg total idx st item,
          ih (idx + 1) (processTask env cfg total idx st item).st]
    · have hf2 : cfg.flagAt idx = false := by
        cases hv : cfg.flagAt idx
        · rfl
        · exact absurd hv hf
      rw [runFrom_flagFalse env cfg total idx st item rest hf2]
      simp [countEff]

theorem runFrom_dcu (env : Env) (cfg : RunCfg) (total : Nat) (u ex : String)
    (hu : skipHit env u = some ex) :
    ∀ (items : List DownloadItem) (idx : Nat) (st : WState),
      countEff (.downloadCall u) (runFrom env cfg total idx st items).effects = 0 := by
  intro items
  induction items with
  | nil => intro idx st; simp [runFrom_nil, countEff]
  | cons item rest ih =>
    intro idx st
    by_cases hf : cfg.flagAt idx = true
    · cases hc : (processTask env cfg total idx st item).crash with
      | some msg =>
        rw [runFrom_crashStep env cfg total idx st item rest msg hf hc]
        exact processTask_dcu_zero env cfg total idx st item u ex hu
      | none =>
        rw [runFrom_step env cfg total idx st item rest hf hc]
        simp only [countEff_append]
        rw [processTask_dcu_zero env cfg total idx st item u ex hu,
          ih (idx + 1) (processTask env cfg total idx st item).st]
    · have hf2 : cfg.flagAt idx = false := by
        cases hv : cfg.flagAt idx
        · rfl
        · exact absurd hv hf
      rw [runFrom_flagFalse env cfg total idx st item rest hf2]
      simp [countEff]

theorem download_worker_ok (env : Env) (cfg : RunCfg) (items : List DownloadItem)
    (h : env.acquireResult 0 = .ok ()) :
    download_worker env cfg items =
      ((runFrom env cfg items.length 0 ⟨0, 0, 1⟩ items).items,
        .acquire :: (runFrom env cfg items.length 0 ⟨0, 0, 1⟩ items).effects
          ++ (match (runFrom env cfg items.length 0 ⟨0, 0, 1⟩ items).crash with
              | some _ => [.log "Error" "error"]
              | none => [])
          ++ [.release, .downloadComplete]) := by
  simp [download_worker, h]

theorem download_worker_acqFail (env : Env) (cfg : RunCfg)
    (items : List DownloadItem) (msg : String)
    (h : env.acquireResult 0 = .error msg) :
    download_worker env cfg items =
      (items, [.log "Error" "error", .downloadComplete]) := by
  simp [download_worker, h]

end Repack

theorem foldl_insertKey (xs : List String) :
    ∀ acc : List String,
      xs.foldl insertKey acc
        = acc ++ firstOccurrences (xs.filter (fun u => u ∉ acc)) := by
  induction xs with
  | nil => intro acc; simp [firstOccurrences]
  | cons x xs ih =>
    intro acc
    rw [List.foldl_cons]
    by_cases hx : x ∈ acc
    · rw [show insertKey acc x = acc from by simp [insertKey, hx]]
      rw [ih acc]
      congr 2
      simp [hx]
    · rw [show insertKey acc x = acc ++ [x] from by simp [insertKey, hx]]
      rw [ih (acc ++ [x])]
      rw [List.append_assoc]
      congr 1
      have hfe : (x :: xs).filter (fun u => u ∉ acc)
          = x :: xs.filter (fun u => u ∉ acc) := by
        simp [hx]
      rw [hfe]
      rw [firstOccurrences]
      rw [List.filter_filter]
      rw [List.singleton_append]
      congr 2
      apply List.filter_congr
      intro u _
      by_cases h1 : u ∈ acc <;> by_cases h2 : u = x <;>
        simp [h1, h2, List.mem_append]

theorem mem_firstOccurrences (a : String) (l : List String) :
    a ∈ firstOccurrences l ↔ a ∈ l := by
  induction l using firstOccurrences.induct with
  | case1 => simp [firstOccurrences]
  | case2 x xs ih =>
    rw [firstOccurrences]
    simp only [List.mem_cons, ih, List.mem_filter, decide_eq_true_eq]
    by_cases h : a = x <;> simp [h]

theorem nodup_firstOccurrences (l : List String) : (firstOccurrences l).Nodup := by
  induction l using firstOccurrences.induct with
  | case1 => simp [firstOccurrences]
  | case2 x xs ih =>
    rw [firstOccurrences]
    refine List.nodup_cons.mpr ⟨?_, ih⟩
    intro hx
    rw [mem_firstOccurrences] at hx
    simp [List.mem_filter] at hx

theorem dictFromKeys_eq (urls : List String) :
    dictFromKeys urls = firstOccurrences urls := by
  unfold dictFromKeys
  rw [foldl_insertKey urls []]
  rw [List.nil_append]
  congr 1
  rw [show urls.filter (fun u => u ∉ ([] : List String)) = urls from by
    simp [List.filter_eq_self]]

namespace Richer

/-- The artifact name that makes the skip branch of richer_gui.py fire
for this url, if any. -/
def skipHit (env : Env) (u : String) : Option String :=
  match truthy (env.resolveBefore u) with
  | some existing => if isTempSuffixRicher existing then none else some existing
  | none => none

theorem skipHit_someR (env : Env) (u ex : String)
    (h : skipHit env u = some ex) :
    truthy (env.resolveBefore u) = some ex ∧ isTempSuffixRicher ex = false := by
  unfold skipHit at h
  cases htr : truthy (env.resolveBefore u) with
  | none => rw [htr] at h; cases h
  | some e2 =>
    rw [htr] at h
    cases hs : isTempSuffixRicher e2 with
    | true => simp [hs] at h
    | false =>
      simp [hs] at h
      exact ⟨by rw [← h], by rw [← h]; exact hs⟩

theorem processTask_skipR (env : Env) (cfg : RunCfg) (total idx : Nat)
    (st : WState) (item : DownloadItem) (ex : String)
    (ht : truthy (env.resolveBefore item.url) = some ex)
    (hs : isTempSuffixRicher ex = false) :
    processTask env cfg total idx st item =
      { item :=
          { item with
            status := .skipped
            size :=
              match env.fileSize ex with
              | some b => (b : ℚ) / (1024 * 1024)
              | none => item.size }
        st := st
        effects := [.log "Skipped (exists)" "warning", .updateQueue,
          .progressEv (idx * 100 / total)]
        crash := none } := by
  simp [processTask, ht, hs]

theorem processTask_attemptR (env : Env) (cfg : RunCfg) (total idx : Nat)
    (st : WState) (item : DownloadItem)
    (h : skipHit env item.url = none) :
    processTask env cfg total idx st item =
      attemptDownload env cfg total idx st item [] := by
  unfold skipHit at h
  unfold processTask
  cases htr : truthy (env.resolveBefore item.url) with
  | none => simp
  | some ex =>
    rw [htr] at h
    cases hs : isTempSuffixRicher ex with
    | true => simp [hs]
    | false => simp [hs] at h

theorem attemptDownload_noRecycleR (env : Env) (cfg : RunCfg) (total idx : Nat)
    (st : WState) (item : DownloadItem) (effs : List Effect)
    (h : st.count < cfg.sessionRefresh) :
    attemptDownload env cfg total idx st item effs =
      doDownload env cfg total idx { st with clock := st.clock + 1 }
        { item with status := .downloading, start_time := some st.clock }
        (effs ++ [.statusEv "Downloading", .updateQueue]) := by
  simp [attemptDownload, Nat.not_le.mpr h]

theorem doDownload_failR (env : Env) (cfg : RunCfg) (total idx : Nat)
    (st : WState) (item : DownloadItem) (effs : List Effect)
    (h : env.download item.url = .ok false) :
    doDownload env cfg total idx st item effs =
      { item :=
          { item with
            status := .failed
            end_time := some st.clock }
        st := { st with clock := st.clock + 1 }
        effects := effs ++ [.downloadCall item.url, .log "Failed" "error",
          .updateQueue, .updateStats, .progressEv ((idx + 1) * 100 / total)]
        crash := none } := by
  simp [doDownload, h, finishTask]

theorem doDownload_ok_noArtifactR (env : Env) (cfg : RunCfg) (total idx : Nat)
    (st : WState) (item : DownloadItem) (effs : List Effect)
    (h : env.download item.url = .ok true)
    (ha : truthy (env.resolveAfter item.url) = none) :
    doDownload env cfg total idx st item effs =
      { item :=
          { item with
            status := .completed
            end_time := some st.clock }
        st := { st with count := st.count + 1, clock := st.clock + 1 }
        effects := effs ++ [.downloadCall item.url,
          .updateQueue, .updateStats, .progressEv ((idx + 1) * 100 / total)]
        crash := none } := by
  simp [doDownload, h, ha, finishTask]

theorem doDownload_ok_sizeRaises (env : Env) (cfg : RunCfg) (total idx : Nat)
    (st : WState) (item : DownloadItem) (effs : List Effect) (dn : String)
    (h : env.download item.url = .ok true)
    (ha : truthy (env.resolveAfter item.url) = some dn)
    (hb : env.fileSize dn = none) :
    doDownload env cfg total idx st item effs =
      { item := { item with status := .completed }
        st := { st with count := st.count + 1 }
        effects := effs ++ [.downloadCall item.url]
        crash := some "getsize" } := by
  simp [doDownload, h, ha, hb]

theorem doDownload_ok_ckErrR (env : Env) (cfg : RunCfg) (total idx : Nat)
    (st : WState) (item : DownloadItem) (effs : List Effect)
    (dn : String) (b : Nat) (msg : String)
    (h : env.download item.url = .ok true)
    (ha : truthy (env.resolveAfter item.url) = some dn)
    (hb : env.fileSize dn = some b)
    (hv : cfg.verifyChecksum = true)
    (hc : env.checksumOf dn = .error msg) :
    doDownload env cfg total idx st item effs =
      { item :=
          { item with
            status := .completed
            size := (b : ℚ) / (1024 * 1024)
            checksum := none
            end_time := some st.clock }
        st := { st with count := st.count + 1, clock := st.clock + 1 }
        effects := effs ++ [.downloadCall item.url, .log "Verifying" "info",
          .log "Checksum error" "error", .log "Success" "success",
          .updateQueue, .updateStats, .progressEv ((idx + 1) * 100 / total)]
        crash := none } := by
  simp [doDownload, h, ha, hb, hv, hc, calculate_checksum, finishTask]

end Richer

theorem repack_attemptDownload_noneBefore (env : Env) (cfg : RunCfg)
    (st : WState) (item : DownloadItem) (effs : List Effect) :
    Repack.attemptDownload (noneBefore env) cfg st item effs
      = Repack.attemptDownload env cfg st item effs := rfl

theorem richer_attemptDownload_noneBefore (env : Env) (cfg : RunCfg)
    (total idx : Nat) (st : WState) (item : DownloadItem) (effs : List Effect) :
    Richer.attemptDownload (noneBefore env) cfg total idx st item effs
      = Richer.attemptDownload env cfg total idx st item effs := rfl

/-- A benign environment for concrete instantiations: every download
succeeds, no artifact exists before or after, the driver always comes up,
checksums compute. -/
def env0 : Env where
  resolveBefore := fun _ => none
  resolveAfter := fun _ => none
  fileSize := fun _ => none
  download := fun _ => .ok true
  checksumOf := fun _ => .ok "d41d8cd9"
  acquireResult := fun _ => .ok ()
  deriveName := fun _ => none

/-- A plain run configuration: threshold ten, checksums on, the
cancellation flag never set. -/
def cfg0 : RunCfg where
  sessionRefresh := 10
  verifyChecksum := true
  flagAt := fun _ => true

/-- Two fresh queue items. -/
def itemA : DownloadItem := { url := "u1", filename := "f1" }

def itemB : DownloadItem := { url := "u2", filename := "f2" }

/-- Worker state as it is right after the initial setup_driver call. -/
def st0 : WState := { count := 0, clock := 0, acqIdx := 1 }

def envSkip : Env :=
  { env0 with
    resolveBefore := fun _ => some "file1.zip"
    fileSize := fun _ => some 1048576 }

def envFailDl : Env := { env0 with download := fun _ => .ok false }

def envRaise : Env :=
  { env0 with download := fun u => if u = "u1" then .error "boom" else .ok true }

def envTmp : Env := { env0 with resolveBefore := fun _ => some "file1.tmp" }

def envCk : Env :=
  { env0 with
    resolveAfter := fun _ => some "file1.zip"
    fileSize := fun _ => some 1048576
    checksumOf := fun _ => .error "read error" }

/-- The flag observations of a run cancelled after the first task. -/
def cfgStop : RunCfg := { cfg0 with flagAt := fun i => i == 0 }

namespace Repack

theorem doDownload_count_ok (env : Env) (cfg : RunCfg) (st : WState)
    (item : DownloadItem) (effs : List Effect)
    (h : env.download item.url = .ok true) :
    (doDownload env cfg st item effs).st.count = st.count + 1 := by
  rcases ha : truthy (env.resolveAfter item.url) with _ | dn
  · rw [doDownload_ok_noArtifact env cfg st item effs h ha]
  · rcases hb : env.fileSize dn with _ | b
    · rw [doDownload_ok_noFile env cfg st item effs dn h ha hb]
    · rcases hv : cfg.verifyChecksum
      · rw [doDownload_ok_noVerify env cfg st item effs dn b h ha hb hv]
      · rcases hc : env.checksumOf dn with msg | d
        · rw [doDownload_ok_ckErr env cfg st item effs dn b msg h ha hb hv hc]
        · rw [doDownload_ok_ckOk env cfg st item effs dn b d h ha hb hv hc]

theorem doDownload_count_fail (env : Env) (cfg : RunCfg) (st : WState)
    (item : DownloadItem) (effs : List Effect)
    (h : env.download item.url = .ok false) :
    (doDownload env cfg st item effs).st.count = st.count := by
  rw [doDownload_fail env cfg st item effs h]

theorem doDownload_ok_endTime (env : Env) (cfg : RunCfg) (st : WState)
    (item : DownloadItem) (effs : List Effect)
    (h : env.download item.url = .ok true) :
    (doDownload env cfg st item effs).item.end_time = some st.clock
    ∧ (doDownload env cfg st item effs).item.status = .completed
    ∧ (doDownload env cfg st item effs).crash = none := by
  rcases ha : truthy (env.resolveAfter item.url) with _ | dn
  · rw [doDownload_ok_noArtifact env cfg st item effs h ha]; exact ⟨rfl, rfl, rfl⟩
  · rcases hb : env.fileSize dn with _ | b
    · rw [doDownload_ok_noFile env cfg st item effs dn h ha hb]; exact ⟨rfl, rfl, rfl⟩
    · rcases hv : cfg.verifyChecksum
      · rw [doDownload_ok_noVerify env cfg st item effs dn b h ha hb hv]
        exact ⟨rfl, rfl, rfl⟩
      · rcases hc : env.checksumOf dn with msg | d
        · rw [doDownload_ok_ckErr env cfg st item effs dn b msg h ha hb hv hc]
          exact ⟨rfl, rfl, rfl⟩
        · rw [doDownload_ok_ckOk env cfg st item effs dn b d h ha hb hv hc]
          exact ⟨rfl, rfl, rfl⟩

end Repack

/-- C8: for any input list of identities containing duplicates, the loaded
queue contains one task per distinct identity exactly once, in order of
first occurrence, and every freshly loaded task starts in state Pending. -/
theorem claim_C8_dedup_load (env : Env) (urls : List String) :
    (load_urls env urls).map DownloadItem.url = firstOccurrences urls
    ∧ ((load_urls env urls).map DownloadItem.url).Nodup
    ∧ (∀ u, u ∈ (load_urls env urls).map DownloadItem.url ↔ u ∈ urls)
    ∧ ∀ it ∈ load_urls env urls, it.status = .pending := by
  have hmap : (load_urls env urls).map DownloadItem.url = dictFromKeys urls := by
    rw [load_urls, List.map_map]
    have hco : DownloadItem.url ∘ DownloadItem.ofUrl env = id := by
      funext u; rfl
    rw [hco, List.map_id]
  refine ⟨?_, ?_, ?_, ?_⟩
  · rw [hmap, dictFromKeys_eq]
  · rw [hmap, dictFromKeys_eq]; exact nodup_firstOccurrences urls
  · intro u
    rw [hmap, dictFromKeys_eq]
    exact mem_firstOccurrences u urls
  · intro it hit
    rw [load_urls, List.mem_map] at hit
    obtain ⟨u, _, rfl⟩ := hit
    rfl

/-- C2: a task whose identity has a non partial artifact present before
its turn ends Skipped with its size read from that artifact, the worker
state (recycle counter, clock, driver index) is untouched, no exception
escapes, and its processing emits neither a download call nor any
resource action; moreover, across a whole worker run, no download call
for such an identity ever appears in the trace. -/
theorem claim_C2_preexisting_skipped (env : Env) (cfg : RunCfg) :
    (∀ (total idx : Nat) (st : WState) (item : DownloadItem) (ex : String) (b : Nat),
      truthy (env.resolveBefore item.url) = some ex →
      isTempSuffixRepack ex = false →
      env.fileSize ex = some b →
      (Repack.processTask env cfg total idx st item).item.status = .skipped
      ∧ (Repack.processTask env cfg total idx st item).item.size = (b : ℚ) / (1024 * 1024)
      ∧ (Repack.processTask env cfg total idx st item).st = st
      ∧ (Repack.processTask env cfg total idx st item).crash = none
      ∧ countEff (.downloadCall item.url) (Repack.processTask env cfg total idx st item).effects = 0
      ∧ countEff .release (Repack.processTask env cfg total idx st item).effects = 0
      ∧ countEff .acquire (Repack.processTask env cfg total idx st item).effects = 0)
    ∧ (∀ (items : List DownloadItem) (u ex : String),
      truthy (env.resolveBefore u) = some ex →
      isTempSuffixRepack ex = false →
      countEff (.downloadCall u) (Repack.download_worker env cfg items).2 = 0) := by
  constructor
  · intro total idx st item ex b ht hs hb
    rw [Repack.processTask_skip env cfg total idx st item ex ht hs]
    refine ⟨rfl, ?_, rfl, rfl, ?_, ?_, ?_⟩
    · simp [hb]
    · simp [countEff]
    · simp [countEff]
    · simp [countEff]
  · intro items u ex ht hs
    have hsk : Repack.skipHit env u = some ex := by
      simp [Repack.skipHit, ht, hs]
    rcases haq : env.acquireResult 0 with msg | v
    · rw [Repack.download_worker_acqFail env cfg items msg haq]
      simp [countEff]
    · cases v
      rw [Repack.download_worker_ok env cfg items haq]
      have hr := Repack.runFrom_dcu env cfg items.length u ex hsk items 0 ⟨0, 0, 1⟩
      cases hcr : (Repack.runFrom env cfg items.length 0 ⟨0, 0, 1⟩ items).crash with
      | some msg => simp [hcr, countEff_cons, countEff_append, countEff, hr]
      | none => simp [hcr, countEff_cons, countEff_append, countEff, hr]

/-- C3: the recycle policy of the worker.  When the recycle counter has
reached the threshold, the processing of the next non skipped task
performs exactly one release and one acquire, and the counter is reset
(so it ends at one after a completed download, at zero after a failed
one); below the threshold no resource action happens and the counter
increments exactly on a completed download; a skipped task never changes
the counter and performs no resource action. -/
theorem claim_C3_recycle_policy (env : Env) (cfg : RunCfg) (total idx : Nat)
    (st : WState) (item : DownloadItem) :
    (Repack.skipHit env item.url = none →
      st.count ≥ cfg.sessionRefresh →
      env.acquireResult st.acqIdx = .ok () →
      countEff .release (Repack.processTask env cfg total idx st item).effects = 1
      ∧ countEff .acquire (Repack.processTask env cfg total idx st item).effects = 1
      ∧ (env.download item.url = .ok true →
          (Repack.processTask env cfg total idx st item).st.count = 1)
      ∧ (env.download item.url = .ok false →
          (Repack.processTask env cfg total idx st item).st.count = 0))
    ∧ (Repack.skipHit env item.url = none →
      st.count < cfg.sessionRefresh →
      countEff .release (Repack.processTask env cfg total idx st item).effects = 0
      ∧ countEff .acquire (Repack.processTask env cfg total idx st item).effects = 0
      ∧ (env.download item.url = .ok true →
          (Repack.processTask env cfg total idx st item).st.count = st.count + 1)
      ∧ (env.download item.url = .ok false →
          (Repack.processTask env cfg total idx st item).st.count = st.count))
    ∧ (∀ ex, Repack.skipHit env item.url = some ex →
      (Repack.processTask env cfg total idx st item).st = st
      ∧ countEff .release (Repack.processTask env cfg total idx st item).effects = 0
      ∧ countEff .acquire (Repack.processTask env cfg total idx st item).effects = 0) := by
  refine ⟨?_, ?_, ?_⟩
  · intro hsk hge ha
    rw [Repack.processTask_attempt env cfg total idx st item hsk]
    rw [Repack.attemptDownload_recycle env cfg st item _ hge ha]
    refine ⟨?_, ?_, ?_, ?_⟩
    · rw [(Repack.doDownload_counts env cfg _ _ _).1]
      simp [countEff]
    · rw [(Repack.doDownload_counts env cfg _ _ _).2.1]
      simp [countEff]
    · intro hd
      exact Repack.doDownload_count_ok env cfg _ _ _ hd
    · intro hd
      exact Repack.doDownload_count_fail env cfg _ _ _ hd
  · intro hsk hlt
    rw [Repack.processTask_attempt env cfg total idx st item hsk]
    rw [Repack.attemptDownload_noRecycle env cfg st item _ hlt]
    refine ⟨?_, ?_, ?_, ?_⟩
    · rw [(Repack.doDownload_counts env cfg _ _ _).1]
      simp [countEff]
    · rw [(Repack.doDownload_counts env cfg _ _ _).2.1]
      simp [countEff]
    · intro hd
      exact Repack.doDownload_count_ok env cfg _ _ _ hd
    · intro hd
      exact Repack.doDownload_count_fail env cfg _ _ _ hd
  · intro ex hsk
    obtain ⟨ht, hs⟩ := Repack.skipHit_some env item.url ex hsk
    rw [Repack.processTask_skip env cfg total idx st item ex ht hs]
    exact ⟨rfl, by simp [countEff], by simp [countEff]⟩

/-- C9: an error raised while computing the checksum of a completed
download is logged and leaves the digest unset, but the task stays
Completed and is never downgraded to Failed; this holds in both
variants of the worker. -/
theorem claim_C9_checksum_error (env : Env) (cfg : RunCfg) (total idx : Nat)
    (st : WState) (item : DownloadItem) (dn : String) (b : Nat) (msg : String) :
    (Repack.skipHit env item.url = none →
      st.count < cfg.sessionRefresh →
      env.download item.url = .ok true →
      truthy (env.resolveAfter item.url) = some dn →
      env.fileSize dn = some b →
      cfg.verifyChecksum = true →
      env.checksumOf dn = .error msg →
      (Repack.processTask env cfg total idx st item).item.status = .completed
      ∧ (Repack.processTask env cfg total idx st item).item.checksum = none
      ∧ (Repack.processTask env cfg total idx st item).item.error = item.error
      ∧ (Repack.processTask env cfg total idx st item).crash = none
      ∧ Effect.log "Checksum error" "error"
          ∈ (Repack.processTask env cfg total idx st item).effects)
    ∧ (Richer.skipHit env item.url = none →
      st.count < cfg.sessionRefresh →
      env.download item.url = .ok true →
      truthy (env.resolveAfter item.url) = some dn →
      env.fileSize dn = some b →
      cfg.verifyChecksum = true →
      env.checksumOf dn = .error msg →
      (Richer.processTask env cfg total idx st item).item.status = .completed
      ∧ (Richer.processTask env cfg total idx st item).item.checksum = none
      ∧ (Richer.processTask env cfg total idx st item).item.error = item.error
      ∧ (Richer.processTask env cfg total idx st item).crash = none
      ∧ Effect.log "Checksum error" "error"
          ∈ (Richer.processTask env cfg total idx st item).effects) := by
  constructor
  · intro hsk hlt hd ha hb hv hc
    rw [Repack.processTask_attempt env cfg total idx st item hsk]
    rw [Repack.attemptDownload_noRecycle env cfg st item _ hlt]
    have heq := Repack.doDownload_ok_ckErr env cfg
      { st with clock := st.clock + 1 }
      { item with status := .downloading, start_time := some st.clock }
      ([.statusEv "Processing", .progressEv (idx * 100 / total)] ++
        [.updateQueue, .log "Downloading" "info"]) dn b msg hd ha hb hv hc
    rw [heq]
    exact ⟨rfl, rfl, rfl, rfl, by simp⟩
  · intro hsk hlt hd ha hb hv hc
    rw [Richer.processTask_attemptR env cfg total idx st item hsk]
    rw [Richer.attemptDownload_noRecycleR env cfg total idx st item _ hlt]
    have heq := Richer.doDownload_ok_ckErrR env cfg total idx
      { st with clock := st.clock + 1 }
      { item with status := .downloading, start_time := some st.clock }
      ([] ++ [.statusEv "Downloading", .updateQueue]) dn b msg hd ha hb hv hc
    rw [heq]
    exact ⟨rfl, rfl, rfl, rfl, by simp⟩

/-- C10: when the download call reports success but the follow up
artifact query resolves nothing, the task still ends Completed, its size
and digest are left untouched (zero and unset for a fresh task), no
failure detail is recorded and no failure is logged; in both variants. -/
theorem claim_C10_missing_artifact_completed (env : Env) (cfg : RunCfg)
    (total idx : Nat) (st : WState) (item : DownloadItem) :
    (Repack.skipHit env item.url = none →
      st.count < cfg.sessionRefresh →
      env.download item.url = .ok true →
      truthy (env.resolveAfter item.url) = none →
      (Repack.processTask env cfg total idx st item).item.status = .completed
      ∧ (Repack.processTask env cfg total idx st item).item.size = item.size
      ∧ (Repack.processTask env cfg total idx st item).item.checksum = item.checksum
      ∧ (Repack.processTask env cfg total idx st item).item.error = item.error
      ∧ (Repack.processTask env cfg total idx st item).crash = none
      ∧ Effect.log "Failed" "error" ∉ (Repack.processTask env cfg total idx st item).effects)
    ∧ (Richer.skipHit env item.url = none →
      st.count < cfg.sessionRefresh →
      env.download item.url = .ok true →
      truthy (env.resolveAfter item.url) = none →
      (Richer.processTask env cfg total idx st item).item.status = .completed
      ∧ (Richer.processTask env cfg total idx st item).item.size = item.size
      ∧ (Richer.processTask env cfg total idx st item).item.checksum = item.checksum
      ∧ (Richer.processTask env cfg total idx st item).item.error = item.error
      ∧ (Richer.processTask env cfg total idx st item).crash = none
      ∧ Effect.log "Failed" "error" ∉ (Richer.processTask env cfg total idx st item).effects) := by
  constructor
  · intro hsk hlt hd ha
    rw [Repack.processTask_attempt env cfg total idx st item hsk]
    rw [Repack.attemptDownload_noRecycle env cfg st item _ hlt]
    have heq := Repack.doDownload_ok_noArtifact env cfg
      { st with clock := st.clock + 1 }
      { item with status := .downloading, start_time := some st.clock }
      ([.statusEv "Processing", .progressEv (idx * 100 / total)] ++
        [.updateQueue, .log "Downloading" "info"]) hd ha
    rw [heq]
    exact ⟨rfl, rfl, rfl, rfl, rfl, by simp⟩
  · intro hsk hlt hd ha
    rw [Richer.processTask_attemptR env cfg total idx st item hsk]
    rw [Richer.attemptDownload_noRecycleR env cfg total idx st item _ hlt]
    have heq := Richer.doDownload_ok_noArtifactR env cfg total idx
      { st with clock := st.clock + 1 }
      { item with status := .downloading, start_time := some st.clock }
      ([] ++ [.statusEv "Downloading", .updateQueue]) hd ha
    rw [heq]
    exact ⟨rfl, rfl, rfl, rfl, rfl, by simp⟩

/-- C6 (amended): a task that ends Failed records an end timestamp in
both variants, and so does a task that ends Completed (in repack.py in
every success branch; in richer_gui.py unless the post download size
lookup raises, in which case the task stays Completed without an end
timestamp and the run aborts); a task that ends Skipped never records an
end timestamp in either variant. -/
theorem claim_C6_end_timestamp (env : Env) (cfg : RunCfg) (total idx : Nat)
    (st : WState) (item : DownloadItem) :
    (Repack.skipHit env item.url = none →
      st.count < cfg.sessionRefresh →
      env.download item.url = .ok true →
      (Repack.processTask env cfg total idx st item).item.status = .completed
      ∧ ∃ t, (Repack.processTask env cfg total idx st item).item.end_time = some t)
    ∧ (Repack.skipHit env item.url = none →
      st.count < cfg.sessionRefresh →
      env.download item.url = .ok false →
      (Repack.processTask env cfg total idx st item).item.status = .failed
      ∧ ∃ t, (Repack.processTask env cfg total idx st item).item.end_time = some t)
    ∧ (∀ ex, Repack.skipHit env item.url = some ex →
      (Repack.processTask env cfg total idx st item).item.status = .skipped
      ∧ (Repack.processTask env cfg total idx st item).item.end_time = item.end_time)
    ∧ (Richer.skipHit env item.url = none →
      st.count < cfg.sessionRefresh →
      env.download item.url = .ok false →
      (Richer.processTask env cfg total idx st item).item.status = .failed
      ∧ ∃ t, (Richer.processTask env cfg total idx st item).item.end_time = some t)
    ∧ (Richer.skipHit env item.url = none →
      st.count < cfg.sessionRefresh →
      env.download item.url = .ok true →
      truthy (env.resolveAfter item.url) = none →
      (Richer.processTask env cfg total idx st item).item.status = .completed
      ∧ ∃ t, (Richer.processTask env cfg total idx st item).item.end_time = some t)
    ∧ (∀ dn, Richer.skipHit env item.url = none →
      st.count < cfg.sessionRefresh →
      env.download item.url = .ok true →
      truthy (env.resolveAfter item.url) = some dn →
      env.fileSize dn = none →
      (Richer.processTask env cfg total idx st item).item.status = .completed
      ∧ (Richer.processTask env cfg total idx st item).item.end_time = item.end_time
      ∧ (Richer.processTask env cfg total idx st item).crash = some "getsize")
    ∧ (∀ ex, Richer.skipHit env item.url = some ex →
      (Richer.processTask env cfg total idx st item).item.status = .skipped
      ∧ (Richer.processTask env cfg total idx st item).item.end_time = item.end_time) := by
  refine ⟨?_, ?_, ?_, ?_, ?_, ?_, ?_⟩
  · intro hsk hlt hd
    rw [Repack.processTask_attempt env cfg total idx st item hsk]
    rw [Repack.attemptDownload_noRecycle env cfg st item _ hlt]
    have h3 := Repack.doDownload_ok_endTime env cfg
      { st with clock := st.clock + 1 }
      { item with status := .downloading, start_time := some st.clock }
      ([.statusEv "Processing", .progressEv (idx * 100 / total)] ++
        [.updateQueue, .log "Downloading" "info"]) hd
    exact ⟨h3.2.1, ⟨_, h3.1⟩⟩
  · intro hsk hlt hd
    rw [Repack.processTask_attempt env cfg total idx st item hsk]
    rw [Repack.attemptDownload_noRecycle env cfg st item _ hlt]
    have heq := Repack.doDownload_fail env cfg
      { st with clock := st.clock + 1 }
      { item with status := .downloading, start_time := some st.clock }
      ([.statusEv "Processing", .progressEv (idx * 100 / total)] ++
        [.updateQueue, .log "Downloading" "info"]) hd
    rw [heq]
    exact ⟨rfl, ⟨_, rfl⟩⟩
  · intro ex hsk
    obtain ⟨ht, hs⟩ := Repack.skipHit_some env item.url ex hsk
    rw [Repack.processTask_skip env cfg total idx st item ex ht hs]
    exact ⟨rfl, rfl⟩
  · intro hsk hlt hd
    rw [Richer.processTask_attemptR env cfg total idx st item hsk]
    rw [Richer.attemptDownload_noRecycleR env cfg total idx st item _ hlt]
    have heq := Richer.doDownload_failR env cfg total idx
      { st with clock := st.clock + 1 }
      { item with status := .downloading, start_time := some st.clock }
      ([] ++ [.statusEv "Downloading", .updateQueue]) hd
    rw [heq]
    exact ⟨rfl, ⟨_, rfl⟩⟩
  · intro hsk hlt hd ha
    rw [Richer.processTask_attemptR env cfg total idx st item hsk]
    rw [Richer.attemptDownload_noRecycleR env cfg total idx st item _ hlt]
    have heq := Richer.doDownload_ok_noArtifactR env cfg total idx
      { st with clock := st.clock + 1 }
      { item with status := .downloading, start_time := some st.clock }
      ([] ++ [.statusEv "Downloading", .updateQueue]) hd ha
    rw [heq]
    exact ⟨rfl, ⟨_, rfl⟩⟩
  · intro dn hsk hlt hd ha hb
    rw [Richer.processTask_attemptR env cfg total idx st item hsk]
    rw [Richer.attemptDownload_noRecycleR env cfg total idx st item _ hlt]
    have heq := Richer.doDownload_ok_sizeRaises env cfg total idx
      { st with clock := st.clock + 1 }
      { item with status := .downloading, start_time := some st.clock }
      ([] ++ [.statusEv "Downloading", .updateQueue]) dn hd ha hb
    rw [heq]
    exact ⟨rfl, rfl, rfl⟩
  · intro ex hsk
    obtain ⟨ht, hs⟩ := Richer.skipHit_someR env item.url ex hsk
    rw [Richer.processTask_skipR env cfg total idx st item ex ht hs]
    exact ⟨rfl, rfl⟩

/-- C6 counterexample: with a preexisting artifact the task reaches the
terminal state Skipped but its end timestamp is never recorded. -/
theorem claim_C6_counterexample :
    (Repack.download_worker envSkip cfg0 [itemA]).1.map DownloadItem.status
        = [.skipped]
    ∧ (Repack.download_worker envSkip cfg0 [itemA]).1.map DownloadItem.end_time
        = [none] :=
  ⟨by decide, by decide⟩

/-- C6 witness: concrete completed, failed and skipped tasks. -/
theorem claim_C6_end_timestamp_witness :
    Repack.skipHit env0 itemA.url = none
    ∧ st0.count < cfg0.sessionRefresh
    ∧ env0.download itemA.url = .ok true
    ∧ ((Repack.processTask env0 cfg0 1 0 st0 itemA).item.status = .completed
      ∧ ∃ t, (Repack.processTask env0 cfg0 1 0 st0 itemA).item.end_time = some t)
    ∧ Repack.skipHit envSkip itemA.url = some "file1.zip"
    ∧ ((Repack.processTask envSkip cfg0 1 0 st0 itemA).item.status = .skipped
      ∧ (Repack.processTask envSkip cfg0 1 0 st0 itemA).item.end_time = itemA.end_time) :=
  ⟨by decide, by decide, rfl,
    (claim_C6_end_timestamp env0 cfg0 1 0 st0 itemA).1 (by decide) (by decide) rfl,
    by decide,
    (claim_C6_end_timestamp envSkip cfg0 1 0 st0 itemA).2.2.1 "file1.zip" (by decide)⟩

/-- C1 (amended): an exception raised by the external download call is
not turned into a per task Failed transition: the in flight task remains
Downloading with no failure detail and no digest, the exception aborts
the queue walk leaving the remaining tasks untouched, and it is caught at
run level, where an error is logged, the resource handle is released and
the single run finished event is still emitted, so the worker thread
itself never crashes. -/
theorem claim_C1_download_exception (env : Env) (cfg : RunCfg) :
    (∀ (total idx : Nat) (st : WState) (item : DownloadItem) (msg : String),
      Repack.skipHit env item.url = none →
      st.count < cfg.sessionRefresh →
      env.download item.url = .error msg →
      (Repack.processTask env cfg total idx st item).item.status = .downloading
      ∧ (Repack.processTask env cfg total idx st item).item.error = item.error
      ∧ (Repack.processTask env cfg total idx st item).item.checksum = item.checksum
      ∧ (Repack.processTask env cfg total idx st item).item.end_time = item.end_time
      ∧ (Repack.processTask env cfg total idx st item).crash = some msg)
    ∧ (∀ (total idx : Nat) (st : WState) (item : DownloadItem)
        (rest : List DownloadItem) (msg : String),
      cfg.flagAt idx = true →
      (Repack.processTask env cfg total idx st item).crash = some msg →
      Repack.runFrom env cfg total idx st (item :: rest) =
        ⟨(Repack.processTask env cfg total idx st item).item :: rest,
          (Repack.processTask env cfg total idx st item).st,
          (Repack.processTask env cfg total idx st item).effects, some msg⟩)
    ∧ (∀ (items : List DownloadItem) (msg : String),
      env.acquireResult 0 = .ok () →
      (Repack.runFrom env cfg items.length 0 ⟨0, 0, 1⟩ items).crash = some msg →
      (Repack.download_worker env cfg items).2 =
        .acquire :: (Repack.runFrom env cfg items.length 0 ⟨0, 0, 1⟩ items).effects
          ++ [.log "Error" "error", .release, .downloadComplete]
      ∧ countEff .downloadComplete (Repack.download_worker env cfg items).2 = 1) := by
  refine ⟨?_, ?_, ?_⟩
  · intro total idx st item msg hsk hlt hd
    rw [Repack.processTask_attempt env cfg total idx st item hsk]
    rw [Repack.attemptDownload_noRecycle env cfg st item _ hlt]
    have heq := Repack.doDownload_raise env cfg
      { st with clock := st.clock + 1 }
      { item with status := .downloading, start_time := some st.clock }
      ([.statusEv "Processing", .progressEv (idx * 100 / total)] ++
        [.updateQueue, .log "Downloading" "info"]) msg hd
    rw [heq]
    exact ⟨rfl, rfl, rfl, rfl, rfl⟩
  · intro total idx st item rest msg hf hc
    exact Repack.runFrom_crashStep env cfg total idx st item rest msg hf hc
  · intro items msg haq hcr
    constructor
    · rw [Repack.download_worker_ok env cfg items haq]
      simp [hcr]
    · rw [Repack.download_worker_ok env cfg items haq]
      have hdcc := Repack.runFrom_dcc env cfg items.length items 0 ⟨0, 0, 1⟩
      simp [hcr, countEff_cons, countEff_append, countEff, hdcc]

/-- C1 counterexample: a queue of two tasks where the download call for
the first raises: the first task does not transition to Failed (it stays
Downloading, no failure detail), and the loop does not proceed to the
second task, which stays Pending. -/
theorem claim_C1_counterexample :
    (Repack.download_worker envRaise cfg0 [itemA, itemB]).1.map DownloadItem.status
        = [.downloading, .pending]
    ∧ (Repack.download_worker envRaise cfg0 [itemA, itemB]).1.map DownloadItem.status
        ≠ [.failed, .completed]
    ∧ (Repack.download_worker envRaise cfg0 [itemA, itemB]).1.map DownloadItem.error
        = [none, none] :=
  ⟨by decide, by decide, by decide⟩

/-- C1 witness: a concrete raising download. -/
theorem claim_C1_download_exception_witness :
    Repack.skipHit envRaise itemA.url = none
    ∧ st0.count < cfg0.sessionRefresh
    ∧ envRaise.download itemA.url = .error "boom"
    ∧ ((Repack.processTask envRaise cfg0 2 0 st0 itemA).item.status = .downloading
      ∧ (Repack.processTask envRaise cfg0 2 0 st0 itemA).item.error = itemA.error
      ∧ (Repack.processTask envRaise cfg0 2 0 st0 itemA).item.checksum = itemA.checksum
      ∧ (Repack.processTask envRaise cfg0 2 0 st0 itemA).item.end_time = itemA.end_time
      ∧ (Repack.processTask envRaise cfg0 2 0 st0 itemA).crash = some "boom") :=
  ⟨by decide, by decide, rfl,
    (claim_C1_download_exception envRaise cfg0).1 2 0 st0 itemA "boom"
      (by decide) (by decide) rfl⟩

/-- C5 (amended): a task whose download call returns false transitions to
Failed and the task is attempted exactly once, the loop proceeding to the
next task; in repack.py the human readable failure detail "Download
failed" is recorded on the task record, while in richer_gui.py only the
status is set and the failure detail stays unset. -/
theorem claim_C5_failed_download (env : Env) (cfg : RunCfg) :
    (∀ (total idx : Nat) (st : WState) (item : DownloadItem),
      Repack.skipHit env item.url = none →
      st.count < cfg.sessionRefresh →
      env.download item.url = .ok false →
      (Repack.processTask env cfg total idx st item).item.status = .failed
      ∧ (Repack.processTask env cfg total idx st item).item.error = some "Download failed"
      ∧ (Repack.processTask env cfg total idx st item).item.end_time = some (st.clock + 1)
      ∧ (Repack.processTask env cfg total idx st item).crash = none
      ∧ countEff (.downloadCall item.url)
          (Repack.processTask env cfg total idx st item).effects = 1)
    ∧ (∀ (total idx : Nat) (st : WState) (item : DownloadItem)
        (rest : List DownloadItem),
      cfg.flagAt idx = true →
      (Repack.processTask env cfg total idx st item).crash = none →
      (Repack.runFrom env cfg total idx st (item :: rest)).items
        = (Repack.processTask env cfg total idx st item).item
            :: (Repack.runFrom env cfg total (idx + 1)
                (Repack.processTask env cfg total idx st item).st rest).items)
    ∧ (∀ (total idx : Nat) (st : WState) (item : DownloadItem),
      Richer.skipHit env item.url = none →
      st.count < cfg.sessionRefresh →
      env.download item.url = .ok false →
      (Richer.processTask env cfg total idx st item).item.status = .failed
      ∧ (Richer.processTask env cfg total idx st item).item.error = item.error
      ∧ (Richer.processTask env cfg total idx st item).crash = none) := by
  refine ⟨?_, ?_, ?_⟩
  · intro total idx st item hsk hlt hd
    rw [Repack.processTask_attempt env cfg total idx st item hsk]
    rw [Repack.attemptDownload_noRecycle env cfg st item _ hlt]
    have heq := Repack.doDownload_fail env cfg
      { st with clock := st.clock + 1 }
      { item with status := .downloading, start_time := some st.clock }
      ([.statusEv "Processing", .progressEv (idx * 100 / total)] ++
        [.updateQueue, .log "Downloading" "info"]) hd
    rw [heq]
    refine ⟨rfl, rfl, rfl, rfl, ?_⟩
    simp [countEff_append, countEff]
  · intro total idx st item rest hf hc
    rw [Repack.runFrom_step env cfg total idx st item rest hf hc]
  · intro total idx st item hsk hlt hd
    rw [Richer.processTask_attemptR env cfg total idx st item hsk]
    rw [Richer.attemptDownload_noRecycleR env cfg total idx st item _ hlt]
    have heq := Richer.doDownload_failR env cfg total idx
      { st with clock := st.clock + 1 }
      { item with status := .downloading, start_time := some st.clock }
      ([] ++ [.statusEv "Downloading", .updateQueue]) hd
    rw [heq]
    exact ⟨rfl, rfl, rfl⟩

/-- C5 counterexample: in richer_gui.py a failed download sets the status
to Failed but records no failure detail on the task record. -/
theorem claim_C5_counterexample :
    (Richer.processTask envFailDl cfg0 1 0 st0 itemA).item.status = .failed
    ∧ (Richer.processTask envFailDl cfg0 1 0 st0 itemA).item.error = none :=
  ⟨by decide, by decide⟩

/-- C5 witness: a concrete failing download in both variants, and the
loop proceeding past it. -/
theorem claim_C5_failed_download_witness :
    Repack.skipHit envFailDl itemA.url = none
    ∧ st0.count < cfg0.sessionRefresh
    ∧ envFailDl.download itemA.url = .ok false
    ∧ ((Repack.processTask envFailDl cfg0 2 0 st0 itemA).item.status = .failed
      ∧ (Repack.processTask envFailDl cfg0 2 0 st0 itemA).item.error = some "Download failed"
      ∧ (Repack.processTask envFailDl cfg0 2 0 st0 itemA).item.end_time = some (st0.clock + 1)
      ∧ (Repack.processTask envFailDl cfg0 2 0 st0 itemA).crash = none
      ∧ countEff (.downloadCall itemA.url)
          (Repack.processTask envFailDl cfg0 2 0 st0 itemA).effects = 1)
    ∧ (Repack.runFrom envFailDl cfg0 2 0 st0 [itemA, itemB]).items
        = (Repack.processTask envFailDl cfg0 2 0 st0 itemA).item
            :: (Repack.runFrom envFailDl cfg0 2 1
                (Repack.processTask envFailDl cfg0 2 0 st0 itemA).st [itemB]).items
    ∧ ((Richer.processTask envFailDl cfg0 2 0 st0 itemA).item.status = .failed
      ∧ (Richer.processTask envFailDl cfg0 2 0 st0 itemA).item.error = itemA.error
      ∧ (Richer.processTask envFailDl cfg0 2 0 st0 itemA).crash = none) :=
  ⟨by decide, by decide, rfl,
    (claim_C5_failed_download envFailDl cfg0).1 2 0 st0 itemA (by decide) (by decide) rfl,
    (claim_C5_failed_download envFailDl cfg0).2.1 2 0 st0 itemA [itemB] (by decide) (by decide),
    (claim_C5_failed_download envFailDl cfg0).2.2 2 0 st0 itemA (by decide) (by decide) rfl⟩

/-- C7 (amended): in repack.py an artifact whose name carries one of the
recognized temporary suffixes (crdownload, part, tmp) is never treated as
existing: the task is processed exactly as if no artifact existed at all.
In richer_gui.py the same holds for the crdownload and part suffixes, but
its skip check does not exclude tmp, so an artifact with a tmp suffix
(recognized as temporary elsewhere in the program) is treated as existing
and the task ends Skipped without any download attempt. -/
theorem claim_C7_partial_suffix (env : Env) (cfg : RunCfg) (total idx : Nat)
    (st : WState) (item : DownloadItem) (ex : String) :
    (truthy (env.resolveBefore item.url) = some ex →
      isTempSuffixRepack ex = true →
      Repack.processTask env cfg total idx st item
        = Repack.processTask (noneBefore env) cfg total idx st item)
    ∧ (truthy (env.resolveBefore item.url) = some ex →
      isTempSuffixRicher ex = true →
      Richer.processTask env cfg total idx st item
        = Richer.processTask (noneBefore env) cfg total idx st item)
    ∧ (truthy (env.resolveBefore item.url) = some ex →
      isTempSuffixRepack ex = true →
      isTempSuffixRicher ex = false →
      (Richer.processTask env cfg total idx st item).item.status = .skipped
      ∧ countEff (.downloadCall item.url)
          (Richer.processTask env cfg total idx st item).effects = 0) := by
  refine ⟨?_, ?_, ?_⟩
  · intro ht hs
    have h1 : Repack.skipHit env item.url = none := by
      simp [Repack.skipHit, ht, hs]
    have h2 : Repack.skipHit (noneBefore env) item.url = none := by
      simp [Repack.skipHit, noneBefore, truthy]
    rw [Repack.processTask_attempt env cfg total idx st item h1,
      Repack.processTask_attempt (noneBefore env) cfg total idx st item h2,
      repack_attemptDownload_noneBefore]
  · intro ht hs
    have h1 : Richer.skipHit env item.url = none := by
      simp [Richer.skipHit, ht, hs]
    have h2 : Richer.skipHit (noneBefore env) item.url = none := by
      simp [Richer.skipHit, noneBefore, truthy]
    rw [Richer.processTask_attemptR env cfg total idx st item h1,
      Richer.processTask_attemptR (noneBefore env) cfg total idx st item h2,
      richer_attemptDownload_noneBefore]
  · intro ht _ hs2
    rw [Richer.processTask_skipR env cfg total idx st item ex ht hs2]
    exact ⟨rfl, by simp [countEff]⟩

/-- C7 counterexample: an artifact named with the tmp suffix: repack.py
attempts the task (one download call, here succeeding), while
richer_gui.py treats it as existing and skips it without any download
call, contrary to the claim that it is attempted from scratch. -/
theorem claim_C7_counterexample :
    (Richer.processTask envTmp cfg0 1 0 st0 itemA).item.status = .skipped
    ∧ countEff (.downloadCall "u1") (Richer.processTask envTmp cfg0 1 0 st0 itemA).effects = 0
    ∧ (Repack.processTask envTmp cfg0 1 0 st0 itemA).item.status = .completed
    ∧ countEff (.downloadCall "u1") (Repack.processTask envTmp cfg0 1 0 st0 itemA).effects = 1 :=
  ⟨by decide, by decide, by decide, by decide⟩

/-- C7 witness: the tmp suffix in repack.py behaves exactly as a missing
artifact, and in richer_gui.py it is skipped. -/
theorem claim_C7_partial_suffix_witness :
    truthy (envTmp.resolveBefore itemA.url) = some "file1.tmp"
    ∧ isTempSuffixRepack "file1.tmp" = true
    ∧ isTempSuffixRicher "file1.tmp" = false
    ∧ Repack.processTask envTmp cfg0 1 0 st0 itemA
        = Repack.processTask (noneBefore envTmp) cfg0 1 0 st0 itemA
    ∧ ((Richer.processTask envTmp cfg0 1 0 st0 itemA).item.status = .skipped
      ∧ countEff (.downloadCall itemA.url)
          (Richer.processTask envTmp cfg0 1 0 st0 itemA).effects = 0) :=
  ⟨by decide, by decide, by decide,
    (claim_C7_partial_suffix envTmp cfg0 1 0 st0 itemA "file1.tmp").1
      (by decide) (by decide),
    (claim_C7_partial_suffix envTmp cfg0 1 0 st0 itemA "file1.tmp").2.2
      (by decide) (by decide) (by decide)⟩

/-- C4 (amended): when the cancellation flag is observed clear at some
iteration, no task from that position on ever changes, so nothing after
the in flight task leaves Pending; in a crash free run the worker itself
releases the resource handle exactly as many times as it acquires it
(once per handle), but when Stop rather than Pause set the flag,
stop_downloads additionally invokes one more release on the already
released handle, so release is invoked once more than acquire; and on
every exit path exactly one run finished event is emitted. -/
theorem claim_C4_cancellation (env : Env) (cfg : RunCfg) (items : List DownloadItem) :
    (∀ k, cfg.flagAt k = false →
      (Repack.download_worker env cfg items).1.drop k = items.drop k)
    ∧ ((Repack.runFrom env cfg items.length 0 ⟨0, 0, 1⟩ items).crash = none →
      countEff .release (Repack.download_worker env cfg items).2
        = countEff .acquire (Repack.download_worker env cfg items).2)
    ∧ ((Repack.runFrom env cfg items.length 0 ⟨0, 0, 1⟩ items).crash = none →
      totalReleaseInvocations true (Repack.download_worker env cfg items).2
        = countEff .acquire (Repack.download_worker env cfg items).2 + 1)
    ∧ countEff .downloadComplete (Repack.download_worker env cfg items).2 = 1 := by
  have hbal : (Repack.runFrom env cfg items.length 0 ⟨0, 0, 1⟩ items).crash = none →
      countEff .release (Repack.download_worker env cfg items).2
        = countEff .acquire (Repack.download_worker env cfg items).2 := by
    intro hcr
    rcases haq : env.acquireResult 0 with msg | v
    · rw [Repack.download_worker_acqFail env cfg items msg haq]
      simp [countEff]
    · cases v
      rw [Repack.download_worker_ok env cfg items haq]
      have hb := Repack.runFrom_balance env cfg items.length items 0 ⟨0, 0, 1⟩ hcr
      simp [hcr, countEff_cons, countEff_append, countEff, hb]
      omega
  refine ⟨?_, hbal, ?_, ?_⟩
  · intro k hk
    rcases haq : env.acquireResult 0 with msg | v
    · rw [Repack.download_worker_acqFail env cfg items msg haq]
    · cases v
      rw [Repack.download_worker_ok env cfg items haq]
      exact Repack.runFrom_drop env cfg items.length items 0 ⟨0, 0, 1⟩ k
        (by simpa using hk)
  · intro hcr
    rw [totalReleaseInvocations, hbal hcr]
    simp
  · rcases haq : env.acquireResult 0 with msg | v
    · rw [Repack.download_worker_acqFail env cfg items msg haq]
      simp [countEff]
    · cases v
      rw [Repack.download_worker_ok env cfg items haq]
      have hdcc := Repack.runFrom_dcc env cfg items.length items 0 ⟨0, 0, 1⟩
      cases hcr : (Repack.runFrom env cfg items.length 0 ⟨0, 0, 1⟩ items).crash with
      | some msg => simp [hcr, countEff_cons, countEff_append, countEff, hdcc]
      | none => simp [hcr, countEff_cons, countEff_append, countEff, hdcc]

/-- C4 counterexample: a run of two tasks cancelled by Stop after the
first: the worker releases the handle once at teardown and Stop itself
invokes a second release, so release is invoked twice, not exactly once. -/
theorem claim_C4_counterexample :
    countEff .release (Repack.download_worker env0 cfgStop [itemA, itemB]).2 = 1
    ∧ totalReleaseInvocations true (Repack.download_worker env0 cfgStop [itemA, itemB]).2 = 2
    ∧ totalReleaseInvocations true (Repack.download_worker env0 cfgStop [itemA, itemB]).2 ≠ 1 :=
  ⟨by decide, by decide, by decide⟩

/-- C4 witness: the cancelled two task run. -/
theorem claim_C4_cancellation_witness :
    cfgStop.flagAt 1 = false
    ∧ (Repack.runFrom env0 cfgStop ([itemA, itemB]).length 0 ⟨0, 0, 1⟩ [itemA, itemB]).crash = none
    ∧ (Repack.download_worker env0 cfgStop [itemA, itemB]).1.drop 1 = ([itemA, itemB]).drop 1
    ∧ countEff .release (Repack.download_worker env0 cfgStop [itemA, itemB]).2
        = countEff .acquire (Repack.download_worker env0 cfgStop [itemA, itemB]).2
    ∧ totalReleaseInvocations true (Repack.download_worker env0 cfgStop [itemA, itemB]).2
        = countEff .acquire (Repack.download_worker env0 cfgStop [itemA, itemB]).2 + 1
    ∧ countEff .downloadComplete (Repack.download_worker env0 cfgStop [itemA, itemB]).2 = 1 :=
  ⟨by decide, by decide,
    (claim_C4_cancellation env0 cfgStop [itemA, itemB]).1 1 (by decide),
    (claim_C4_cancellation env0 cfgStop [itemA, itemB]).2.1 (by decide),
    (claim_C4_cancellation env0 cfgStop [itemA, itemB]).2.2.1 (by decide),
    (claim_C4_cancellation env0 cfgStop [itemA, itemB]).2.2.2⟩

/-- C2 witness: a concrete preexisting non partial artifact. -/
theorem claim_C2_preexisting_skipped_witness :
    truthy (envSkip.resolveBefore itemA.url) = some "file1.zip"
    ∧ isTempSuffixRepack "file1.zip" = false
    ∧ envSkip.fileSize "file1.zip" = some 1048576
    ∧ ((Repack.processTask envSkip cfg0 1 0 st0 itemA).item.status = .skipped
      ∧ (Repack.processTask envSkip cfg0 1 0 st0 itemA).item.size
          = (1048576 : ℚ) / (1024 * 1024)
      ∧ (Repack.processTask envSkip cfg0 1 0 st0 itemA).st = st0
      ∧ (Repack.processTask envSkip cfg0 1 0 st0 itemA).crash = none
      ∧ countEff (.downloadCall itemA.url)
          (Repack.processTask envSkip cfg0 1 0 st0 itemA).effects = 0
      ∧ countEff .release (Repack.processTask envSkip cfg0 1 0 st0 itemA).effects = 0
      ∧ countEff .acquire (Repack.processTask envSkip cfg0 1 0 st0 itemA).effects = 0)
    ∧ countEff (.downloadCall "u1") (Repack.download_worker envSkip cfg0 [itemA]).2 = 0 :=
  ⟨by decide, by decide, by decide,
    (claim_C2_preexisting_skipped envSkip cfg0).1 1 0 st0 itemA "file1.zip" 1048576
      (by decide) (by decide) (by decide),
    (claim_C2_preexisting_skipped envSkip cfg0).2 [itemA] "u1" "file1.zip"
      (by decide) (by decide)⟩

/-- Worker state with the recycle counter exactly at the default
threshold of ten completed downloads. -/
def st10 : WState := { count := 10, clock := 0, acqIdx := 1 }

/-- C3 witness: a concrete task processed with the counter at the
threshold, and one below the threshold. -/
theorem claim_C3_recycle_policy_witness :
    Repack.skipHit env0 itemA.url = none
    ∧ st10.count ≥ cfg0.sessionRefresh
    ∧ env0.acquireResult st10.acqIdx = .ok ()
    ∧ (countEff .release (Repack.processTask env0 cfg0 1 0 st10 itemA).effects = 1
      ∧ countEff .acquire (Repack.processTask env0 cfg0 1 0 st10 itemA).effects = 1
      ∧ (env0.download itemA.url = .ok true →
          (Repack.processTask env0 cfg0 1 0 st10 itemA).st.count = 1)
      ∧ (env0.download itemA.url = .ok false →
          (Repack.processTask env0 cfg0 1 0 st10 itemA).st.count = 0))
    ∧ st0.count < cfg0.sessionRefresh
    ∧ (countEff .release (Repack.processTask env0 cfg0 1 0 st0 itemA).effects = 0
      ∧ countEff .acquire (Repack.processTask env0 cfg0 1 0 st0 itemA).effects = 0
      ∧ (env0.download itemA.url = .ok true →
          (Repack.processTask env0 cfg0 1 0 st0 itemA).st.count = st0.count + 1)
      ∧ (env0.download itemA.url = .ok false →
          (Repack.processTask env0 cfg0 1 0 st0 itemA).st.count = st0.count)) :=
  ⟨by decide, by decide, rfl,
    (claim_C3_recycle_policy env0 cfg0 1 0 st10 itemA).1 (by decide) (by decide) rfl,
    by decide,
    (claim_C3_recycle_policy env0 cfg0 1 0 st0 itemA).2.1 (by decide) (by decide)⟩

/-- C9 witness: a concrete checksum read error after a successful
download. -/
theorem claim_C9_checksum_error_witness :
    Repack.skipHit envCk itemA.url = none
    ∧ st0.count < cfg0.sessionRefresh
    ∧ envCk.download itemA.url = .ok true
    ∧ truthy (envCk.resolveAfter itemA.url) = some "file1.zip"
    ∧ envCk.fileSize "file1.zip" = some 1048576
    ∧ cfg0.verifyChecksum = true
    ∧ envCk.checksumOf "file1.zip" = .error "read error"
    ∧ ((Repack.processTask envCk cfg0 1 0 st0 itemA).item.status = .completed
      ∧ (Repack.processTask envCk cfg0 1 0 st0 itemA).item.checksum = none
      ∧ (Repack.processTask envCk cfg0 1 0 st0 itemA).item.error = itemA.error
      ∧ (Repack.processTask envCk cfg0 1 0 st0 itemA).crash = none
      ∧ Effect.log "Checksum error" "error"
          ∈ (Repack.processTask envCk cfg0 1 0 st0 itemA).effects)
    ∧ ((Richer.processTask envCk cfg0 1 0 st0 itemA).item.status = .completed
      ∧ (Richer.processTask envCk cfg0 1 0 st0 itemA).item.checksum = none
      ∧ (Richer.processTask envCk cfg0 1 0 st0 itemA).item.error = itemA.error
      ∧ (Richer.processTask envCk cfg0 1 0 st0 itemA).crash = none
      ∧ Effect.log "Checksum error" "error"
          ∈ (Richer.processTask envCk cfg0 1 0 st0 itemA).effects) :=
  ⟨by decide, by decide, rfl, by decide, by decide, by decide, rfl,
    (claim_C9_checksum_error envCk cfg0 1 0 st0 itemA "file1.zip" 1048576 "read error").1
      (by decide) (by decide) rfl (by decide) (by decide) (by decide) rfl,
    (claim_C9_checksum_error envCk cfg0 1 0 st0 itemA "file1.zip" 1048576 "read error").2
      (by decide) (by decide) rfl (by decide) (by decide) (by decide) rfl⟩

/-- C10 witness: a successful download whose follow up artifact query
resolves nothing. -/
theorem claim_C10_missing_artifact_completed_witness :
    Repack.skipHit env0 itemA.url = none
    ∧ st0.count < cfg0.sessionRefresh
    ∧ env0.download itemA.url = .ok true
    ∧ truthy (env0.resolveAfter itemA.url) = none
    ∧ ((Repack.processTask env0 cfg0 1 0 st0 itemA).item.status = .completed
      ∧ (Repack.processTask env0 cfg0 1 0 st0 itemA).item.size = itemA.size
      ∧ (Repack.processTask env0 cfg0 1 0 st0 itemA).item.checksum = itemA.checksum
      ∧ (Repack.processTask env0 cfg0 1 0 st0 itemA).item.error = itemA.error
      ∧ (Repack.processTask env0 cfg0 1 0 st0 itemA).crash = none
      ∧ Effect.log "Failed" "error" ∉ (Repack.processTask env0 cfg0 1 0 st0 itemA).effects)
    ∧ ((Richer.processTask env0 cfg0 1 0 st0 itemA).item.status = .completed
      ∧ (Richer.processTask env0 cfg0 1 0 st0 itemA).item.size = itemA.size
      ∧ (Richer.processTask env0 cfg0 1 0 st0 itemA).item.checksum = itemA.checksum
      ∧ (Richer.processTask env0 cfg0 1 0 st0 itemA).item.error = itemA.error
      ∧ (Richer.processTask env0 cfg0 1 0 st0 itemA).crash = none
      ∧ Effect.log "Failed" "error" ∉ (Richer.processTask env0 cfg0 1 0 st0 itemA).effects) :=
  ⟨by decide, by decide, rfl, by decide,
    (claim_C10_missing_artifact_completed env0 cfg0 1 0 st0 itemA).1
      (by decide) (by decide) rfl (by decide),
    (claim_C10_missing_artifact_completed env0 cfg0 1 0 st0 itemA).2
      (by decide) (by decide) rfl (by decide)⟩
